import Mathlib

/-!
Verification of the matrix reconciliation engine: a shallow embedding of
the `SourceLinker`, `RepositoryCloner`, workspace/manifest helpers and
`MatrixReconciler` from the repository, together with theorems settling
the specification claims about them.

The filesystem is modelled as a flat association list from absolute path
strings to entries (directory, file with content, or symlink with target).
Python library calls are modelled at the granularity the code uses them:
`Path.exists` follows symlinks (a dangling symlink does not "exist"),
`Path.is_symlink` inspects the entry itself, `Path.resolve` follows
symlink chains (bounded by the number of entries, as real chains are),
`Path.mkdir(parents=True, exist_ok=True)` is a no-op on an existing
directory but raises `FileExistsError` on an existing non-directory, and
`Path.symlink_to` fails when the link path is already occupied.
Environment-dependent failures (permissions, network) that are not
determined by the filesystem state are injected through explicit boolean
parameters where the code catches them.
-/

namespace MatrixApp

/-- A filesystem entry: a directory, a regular file with its content, or a
symbolic link with its (uninterpreted) target path. -/
inductive Entry where
  | dir : Entry
  | file : String → Entry
  | symlink : String → Entry
  deriving DecidableEq, Repr

/-- A filesystem: a finite association of absolute path strings to entries.
Earlier bindings shadow later ones. -/
def FS : Type := List (String × Entry)

instance : DecidableEq FS := by unfold FS; infer_instance

instance : Repr FS := by unfold FS; infer_instance

instance {ε α : Type} [DecidableEq ε] [DecidableEq α] :
    DecidableEq (Except ε α) := fun a b =>
  match a, b with
  | Except.ok x, Except.ok y =>
    if h : x = y then isTrue (by rw [h]) else isFalse (by simp [h])
  | Except.error x, Except.error y =>
    if h : x = y then isTrue (by rw [h]) else isFalse (by simp [h])
  | Except.ok _, Except.error _ => isFalse (by simp)
  | Except.error _, Except.ok _ => isFalse (by simp)

/-- lstat-style lookup of the entry at a path (does not follow symlinks). -/
def lookupFS (fs : FS) (p : String) : Option Entry :=
  (List.find? (fun x => x.1 == p) fs).map (fun x => x.2)

/-- `Path.is_symlink()`: the entry at `p` is itself a symlink. -/
def isSymlinkFS (fs : FS) (p : String) : Bool :=
  match lookupFS fs p with
  | some (Entry.symlink _) => true
  | _ => false

/-- `Path.exists()`: follows symlinks, so a dangling symlink does not exist.
(One level of following suffices for link targets that are real entries.) -/
def existsFS (fs : FS) (p : String) : Bool :=
  match lookupFS fs p with
  | none => false
  | some (Entry.symlink t) => (lookupFS fs t).isSome
  | some _ => true

/-- Fuelled symlink-chain following, the core of `Path.resolve()`. -/
def resolveFuel : Nat → FS → String → String
  | 0, _, p => p
  | Nat.succ n, fs, p =>
    match lookupFS fs p with
    | some (Entry.symlink t) => resolveFuel n fs t
    | _ => p

/-- `Path.resolve()` (non-strict): follow symlink chains; the fuel bound
`fs.length + 1` covers every acyclic chain the filesystem can hold. -/
def resolveFS (fs : FS) (p : String) : String :=
  resolveFuel (fs.length + 1) fs p

/-- Remove the entry at `p` (no-op when absent). -/
def removeFS (fs : FS) (p : String) : FS :=
  List.filter (fun x => x.1 != p) fs

/-- Set the entry at `p`, replacing any previous binding. -/
def setFS (fs : FS) (p : String) (e : Entry) : FS :=
  (p, e) :: removeFS fs p

/-- `Path.is_dir()` (follows symlinks, one level like `existsFS`): the
entry at `p` is a directory or a symlink to one. -/
def pyIsDir (fs : FS) (p : String) : Bool :=
  match lookupFS fs p with
  | some Entry.dir => true
  | some (Entry.symlink t) =>
    (match lookupFS fs t with
     | some Entry.dir => true
     | _ => false)
  | _ => false

/-- `Path.mkdir(parents=True, exist_ok=True)`: create the directory when
the path is free; on an existing path, `exist_ok=True` suppresses the
`FileExistsError` only when the existing entry is a directory (`is_dir()`
follows symlinks) — an existing non-directory raises. -/
def mkdirFS (fs : FS) (p : String) : Except String FS :=
  if (lookupFS fs p).isSome then
    (if pyIsDir fs p then Except.ok fs
     else Except.error ("FileExistsError: " ++ p))
  else Except.ok ((p, Entry.dir) :: fs)

/-- Join a directory path with a child name (`dir / name`). -/
def childPath (d name : String) : String := d ++ "/" ++ name

/-- `Source` record (src/apps/backend/src/source/model.py). `source_type`
is the string discriminator `"local"` or `"remote"`, kept as a string
exactly as in the code. -/
structure Source where
  id : String
  name : String
  path : String
  url : Option String
  source_type : String
  created_at : String
  deriving DecidableEq, Repr

/-- `Matrix` record (src/apps/backend/src/matrix/model.py). -/
structure Matrix where
  id : String
  name : String
  source_ids : List String
  workspace_path : String
  created_at : String
  updated_at : String
  deriving DecidableEq, Repr

/-- Python truthiness of an optional string (`if source.url:`): `None` and
the empty string are falsy. -/
def urlTruthy : Option String → Bool
  | none => false
  | some s => s ≠ ""

/-- Python `s[:n]` on a string: the first `n` characters. (Core
`String.take` is substring-based and does not reduce in the kernel, so the
model works on the character list directly.) -/
def takeChars (s : String) (n : Nat) : String := String.mk (s.data.take n)

/-- Python `str.strip()`: drop whitespace from both ends. -/
def pyStrip (cs : List Char) : List Char :=
  ((cs.dropWhile Char.isWhitespace).reverse.dropWhile Char.isWhitespace).reverse

/-! ## SourceLinker (src/apps/backend/src/source/linker.py) -/

/-- `SourceLinker._sanitize_link_name`: replace `/`, `\` and `:` by `_`
and strip surrounding whitespace. The three single-character
`str.replace` calls compose to one character map. -/
def sanitize_link_name (name : String) : String :=
  String.mk (pyStrip (name.data.map (fun c =>
    if c == '/' || c == '\\' || c == ':' then '_' else c)))

/-- Outcome of `SourceLinker.link_source_to_matrix`: the resulting link
path, a raised `SymlinkError`, or an `OSError` escaping the linker — the
workspace `mkdir` at linker.py:43 is not inside any try, so its
`FileExistsError` propagates out of the linker undisturbed, unlike
`symlink_to` failures which the linker wraps into `SymlinkError`. -/
inductive LinkResult where
  | ok : String → LinkResult
  | symlinkError : String → LinkResult
  | osError : String → LinkResult
  deriving DecidableEq, Repr

/-- `SourceLinker.link_source_to_matrix`. Returns the outcome together
with the filesystem after the call. `symlink_to` on an occupied path
raises `FileExistsError`, an `OSError`, which the code wraps into
`SymlinkError`; the workspace `mkdir` raising on an occupied
non-directory workspace path escapes as a raw `OSError`. -/
def link_source_to_matrix (source : Source) (matrix_workspace_path : String)
    (fs : FS) : LinkResult × FS :=
  if !(existsFS fs source.path) then
    (LinkResult.symlinkError ("Source path does not exist: " ++ source.path), fs)
  else
    match mkdirFS fs matrix_workspace_path with
    | Except.error e => (LinkResult.osError e, fs)
    | Except.ok fs1 =>
      let link_name := sanitize_link_name source.name
      let link_path := childPath matrix_workspace_path link_name
      if isSymlinkFS fs1 link_path
          && (resolveFS fs1 link_path == resolveFS fs1 source.path) then
        (LinkResult.ok link_path, fs1)
      else
        let link_path2 :=
          if existsFS fs1 link_path || isSymlinkFS fs1 link_path then
            childPath matrix_workspace_path (link_name ++ "-" ++ takeChars source.id 8)
          else link_path
        if (lookupFS fs1 link_path2).isSome then
          (LinkResult.symlinkError ("Failed to create symlink: " ++ link_path2
              ++ " already exists"), fs1)
        else
          (LinkResult.ok link_path2, setFS fs1 link_path2 (Entry.symlink source.path))

/-- `SourceLinker.unlink_source_from_matrix`: try the base sanitized name,
fall back to the id-suffixed name, and remove the entry only when it is a
symlink. Removal of an entry present in the model filesystem always
succeeds, so the function is total. -/
def unlink_source_from_matrix (source : Source) (matrix_workspace_path : String)
    (fs : FS) : FS :=
  let link_name := sanitize_link_name source.name
  let base_path := childPath matrix_workspace_path link_name
  let link_path :=
    if !(isSymlinkFS fs base_path) then
      childPath matrix_workspace_path (link_name ++ "-" ++ takeChars source.id 8)
    else base_path
  if isSymlinkFS fs link_path then removeFS fs link_path else fs

/-- `SourceLinker.is_linked`: both candidate names count, and a candidate
counts only as a symlink whose resolved target equals the resolved source
path. -/
def is_linked (source : Source) (matrix_workspace_path : String) (fs : FS) : Bool :=
  if !(existsFS fs matrix_workspace_path) then false
  else
    let link_name := sanitize_link_name source.name
    let candidates := [childPath matrix_workspace_path link_name,
      childPath matrix_workspace_path (link_name ++ "-" ++ takeChars source.id 8)]
    candidates.any (fun lp =>
      isSymlinkFS fs lp && (resolveFS fs lp == resolveFS fs source.path))

/-! ## RepositoryCloner (src/apps/backend/src/source/cloner.py) -/

/-- Strip one trailing `".git"` from a reversed character list. -/
def dropGitSuffixRev (r : List Char) : List Char :=
  match r with
  | 't' :: 'i' :: 'g' :: '.' :: rest => rest
  | _ => r

/-- `RepositoryCloner.extract_repo_name`: last `/`- or `:`-separated
segment of the URL after stripping one trailing `/` and an optional
`.git` suffix (the regex `[/:]([^/:]+?)(?:\.git)?/?$`); the fixed fallback
is `"repository"` when no such segment exists. (The model reads the URL
right to left; a segment that is exactly `".git"` falls to the fallback,
a degenerate case no claim depends on.) -/
def extract_repo_name (url : String) : String :=
  let r0 := url.data.reverse
  let r1 := match r0 with
    | '/' :: rest => rest
    | _ => r0
  let r2 := dropGitSuffixRev r1
  let seg := r2.takeWhile (fun c => c != '/' && c != ':')
  if r2.any (fun c => c == '/' || c == ':') then
    if seg.isEmpty then "repository" else String.mk seg.reverse
  else "repository"

/-- Zero-padded four-digit rendering of `n % 10000` (Python `f"{n:04d}"`
for `0 ≤ n < 10000`). -/
def pad4 (n : Nat) : String :=
  let s := toString n
  String.mk (List.replicate (4 - s.length) '0') ++ s

/-- Outcome of `clone_repository`: the returned path or the `CloneError`
message, the filesystem after the call, and how many times the external
`git clone` subprocess was invoked. -/
structure CloneOutcome where
  result : Except String String
  fs : FS
  gitCalls : Nat
  deriving Repr

/-- `RepositoryCloner.clone_repository`. `gitAvailable` models
`_is_git_available`; `pyHash` models Python's builtin `hash` on strings,
which is salted per process (`PYTHONHASHSEED`), so it is a parameter
rather than a fixed function of the URL; `reposDir` is
`self.repositories_dir`. The external `git clone url path` subprocess is
modelled by its state-determined behaviour: it fails with a non-zero exit
when the destination path already holds an entry (non-empty destination),
and otherwise creates the repository directory with its `.git` marker. -/
def clone_repository (gitAvailable : Bool) (pyHash : String → Nat)
    (reposDir : String) (fs : FS) (url : String) (name : Option String) :
    CloneOutcome :=
  if !gitAvailable then
    ⟨Except.error "git command not found. Please install git.", fs, 0⟩
  else
    let clone_name := name.getD (extract_repo_name url)
    let clone_path := childPath reposDir clone_name
    if existsFS fs clone_path && existsFS fs (childPath clone_path ".git") then
      ⟨Except.ok clone_path, fs, 0⟩
    else
      let clone_path2 :=
        if existsFS fs clone_path then
          childPath reposDir (clone_name ++ "-" ++ pad4 (pyHash url % 10000))
        else clone_path
      if (lookupFS fs clone_path2).isSome then
        ⟨Except.error ("Git clone failed: destination path " ++ clone_path2
            ++ " already exists and is not an empty directory"), fs, 1⟩
      else
        ⟨Except.ok clone_path2,
          setFS (setFS fs clone_path2 Entry.dir)
            (childPath clone_path2 ".git") Entry.dir, 1⟩

/-! ## Workspace and manifest (src/packages/core/src/matrix/space.py) -/

/-- `_format_timestamp`: renders an ISO timestamp for display, returning
the input unchanged when it does not parse. The claims never depend on the
rendered text, so the model keeps the input string (the parse-failure
branch of the code); only its determinism matters. -/
def format_timestamp (iso_timestamp : String) : String := iso_timestamp

/-- `_generate_sources_section`. -/
def generate_sources_section (sources : List Source) : String :=
  if sources.isEmpty then "*No sources added yet.*"
  else
    String.intercalate "\n\n" (sources.map (fun source =>
      String.intercalate "\n"
        ([s!"### {source.name}", s!"- **Path**: `{source.path}`"]
          ++ (match source.url with
              | some u => if u ≠ "" then [s!"- **URL**: {u}"] else []
              | none => [])
          ++ [s!"- **Source ID**: `{source.id}`"])))

/-- `_generate_relationships_section`. -/
def generate_relationships_section (sources : List Source) : String :=
  if sources.isEmpty then "*Define relationships between sources here.*"
  else "*Document how these sources relate to each other:*\n\n" ++
    "- Dependencies between repositories\n- Shared interfaces or contracts\n" ++
    "- Integration points\n- Communication patterns"

/-- `generate_matrix_md_content`: the rendered `MATRIX.md` text, a pure
function of the matrix and its sources. -/
def generate_matrix_md_content (matrix : Matrix) (sources : List Source) : String :=
  s!"# {matrix.name}\n\n**Created**: {format_timestamp matrix.created_at}\n" ++
  s!"**Last Updated**: {format_timestamp matrix.updated_at}\n" ++
  s!"**Matrix ID**: `{matrix.id}`\n\n## Overview\n\n" ++
  "This is a Matrix workspace for organizing and coordinating work across " ++
  "multiple repositories.\n\n## Sources\n\n" ++
  generate_sources_section sources ++
  "\n\n## Source Relationships\n\n" ++
  generate_relationships_section sources ++ "\n"

/-- `create_matrix_space`: create the workspace directory and write
`MATRIX.md`. `io_ok` injects the environment-dependent `OSError`
(permissions, disk); the state-determined `FileExistsError` of `mkdir` on
an occupied non-directory path comes from `mkdirFS`. Either way the error
is an `OSError`, which every caller of this function catches. -/
def create_matrix_space (io_ok : Bool) (matrix : Matrix) (sources : List Source)
    (fs : FS) : Except String FS :=
  if !io_ok then Except.error "oserror while creating matrix space"
  else
    match mkdirFS fs matrix.workspace_path with
    | Except.error e => Except.error e
    | Except.ok fs1 =>
      Except.ok (setFS fs1 (childPath matrix.workspace_path "MATRIX.md")
        (Entry.file (generate_matrix_md_content matrix sources)))

/-- `update_matrix_md`: delegate to `create_matrix_space` when the
workspace is missing, otherwise overwrite `MATRIX.md` in place (`io_ok`
injects the `OSError` of `write_text`, including a workspace path
occupied by a non-directory; the reconciler catches it either way). -/
def update_matrix_md (io_ok : Bool) (matrix : Matrix) (sources : List Source)
    (fs : FS) : Except String FS :=
  if !(existsFS fs matrix.workspace_path) then
    create_matrix_space io_ok matrix sources fs
  else if !io_ok then Except.error "oserror while writing MATRIX.md"
  else
    Except.ok (setFS fs (childPath matrix.workspace_path "MATRIX.md")
      (Entry.file (generate_matrix_md_content matrix sources)))

/-! ## MatrixReconciler (src/apps/backend/src/matrix/reconciler.py) -/

/-- `SourceReconcileResult`: report entry for one source. `status` is one
of the literal strings `"ok"`, `"repaired"`, `"skipped"`, `"error"`. -/
structure SourceReconcileResult where
  source_id : String
  source_name : String
  status : String
  action : String := ""
  deriving DecidableEq, Repr

/-- `ReconcileReport`. -/
structure ReconcileReport where
  workspace_recreated : Bool := false
  matrix_md_recreated : Bool := false
  sources_reconciled : List SourceReconcileResult := []
  orphaned_source_ids : List String := []
  deriving DecidableEq, Repr

/-- `ReconcileReport.has_repairs`. -/
def ReconcileReport.has_repairs (r : ReconcileReport) : Bool :=
  r.workspace_recreated || r.matrix_md_recreated
    || r.sources_reconciled.any (fun x => x.status == "repaired")

/-- Environment of one reconcile run: injected I/O outcomes for the two
manifest writes (`OSError` is environment-dependent) and the cloner
dependency exactly as `MatrixReconciler.__init__` injects it. `cloneFn url
name fs` returns the clone path and new filesystem, or the `CloneError`
message. -/
structure ReconEnv where
  create_space_ok : Bool
  update_md_ok : Bool
  cloneFn : String → String → FS → Except String (String × FS)

/-- `MatrixReconciler._reconcile_local_source` (the part after the
`is_linked` check): skip when the local path is missing, otherwise attempt
the link, turning success into `repaired` and `SymlinkError` into `error`
with the message as action. Only `SymlinkError` is caught
(reconciler.py:182): an `OSError` escaping the linker (workspace `mkdir`
on an occupied non-directory path) propagates out uncaught —
`Except.error` here. -/
def reconcile_local_source (source : Source) (matrix_workspace_path : String)
    (fs : FS) : Except String (SourceReconcileResult × FS) :=
  if !(existsFS fs source.path) then
    Except.ok (⟨source.id, source.name, "skipped", "local path missing"⟩, fs)
  else
    match link_source_to_matrix source matrix_workspace_path fs with
    | (LinkResult.ok _, fs1) =>
      Except.ok (⟨source.id, source.name, "repaired", "symlink recreated"⟩, fs1)
    | (LinkResult.symlinkError e, fs1) =>
      Except.ok (⟨source.id, source.name, "error", e⟩, fs1)
    | (LinkResult.osError e, _) => Except.error e

/-- The `# Now create the symlink` tail of
`MatrixReconciler._reconcile_remote_source`: link the (possibly
re-cloned) source; `recloned` compares the current `source.path` with the
originally captured `source_path` via `samefile` (same resolved file).
This branch catches `(SymlinkError, OSError)` (reconciler.py:229), so an
`OSError` escaping the linker also becomes an `error` entry here. -/
def remote_link_phase (source2 : Source) (source_path : String)
    (matrix_workspace_path : String) (fs : FS) :
    SourceReconcileResult × FS × Source :=
  match link_source_to_matrix source2 matrix_workspace_path fs with
  | (LinkResult.ok _, fs1) =>
    let recloned :=
      if existsFS fs1 source_path then
        !(resolveFS fs1 source2.path == resolveFS fs1 source_path)
      else true
    let action := if recloned then "recloned and symlink created"
      else "symlink recreated"
    (⟨source2.id, source2.name, "repaired", action⟩, fs1, source2)
  | (LinkResult.symlinkError e, fs1) =>
    (⟨source2.id, source2.name, "error", e⟩, fs1, source2)
  | (LinkResult.osError e, fs1) =>
    (⟨source2.id, source2.name, "error", e⟩, fs1, source2)

/-- `MatrixReconciler._reconcile_remote_source`: re-clone when the clone
path is missing and a URL is present (overwriting `source.path` with the
new clone path — the third component returns the possibly-mutated source),
skip when missing without URL, then attempt the link. `source_path` is the
path captured before the mutation, as in the code. -/
def reconcile_remote_source (env : ReconEnv) (source : Source)
    (matrix_workspace_path : String) (fs : FS) :
    SourceReconcileResult × FS × Source :=
  let source_path := source.path
  if !(existsFS fs source_path) && urlTruthy source.url then
    match env.cloneFn (source.url.getD "") source.name fs with
    | Except.error e =>
      (⟨source.id, source.name, "error", "reclone failed: " ++ e⟩, fs, source)
    | Except.ok (clone_path, fs1) =>
      let source2 := { source with path := clone_path }
      remote_link_phase source2 source_path matrix_workspace_path fs1
  else if !(existsFS fs source_path) then
    (⟨source.id, source.name, "skipped", "remote clone missing and no URL"⟩,
      fs, source)
  else
    remote_link_phase source source_path matrix_workspace_path fs

/-- `MatrixReconciler._reconcile_source`: dispatch on `is_linked` and
`source.source_type`. Returns the report entry, the filesystem after the
attempt, and the (possibly path-mutated) source object; `Except.error` is
the uncaught `OSError` escaping a local repair. -/
def reconcile_source (env : ReconEnv) (source : Source)
    (matrix_workspace_path : String) (fs : FS) :
    Except String (SourceReconcileResult × FS × Source) :=
  if is_linked source matrix_workspace_path fs then
    Except.ok (⟨source.id, source.name, "ok", ""⟩, fs, source)
  else if source.source_type == "local" then
    match reconcile_local_source source matrix_workspace_path fs with
    | Except.ok (r, fs1) => Except.ok (r, fs1, source)
    | Except.error e => Except.error e
  else
    Except.ok (reconcile_remote_source env source matrix_workspace_path fs)

/-- The per-source loop of `MatrixReconciler.reconcile` (step 4): each
resolved source is reconciled in input order, threading the filesystem; an
exception escaping one source's repair unwinds the whole loop. -/
def reconcileSources (env : ReconEnv) (matrix_workspace_path : String) :
    List Source → FS →
      Except String (List SourceReconcileResult × FS × List Source)
  | [], fs => Except.ok ([], fs, [])
  | s :: rest, fs =>
    match reconcile_source env s matrix_workspace_path fs with
    | Except.error e => Except.error e
    | Except.ok (r, fs1, s') =>
      match reconcileSources env matrix_workspace_path rest fs1 with
      | Except.error e => Except.error e
      | Except.ok (rs, fs2, ss') => Except.ok (r :: rs, fs2, s' :: ss')

/-- Step 3 of `reconcile`: ids listed by the matrix with no resolved
source, in the original order of `matrix.source_ids`. -/
def orphanedIds (matrix : Matrix) (sources : List Source) : List String :=
  matrix.source_ids.filter (fun sid => !(sources.any (fun s => s.id == sid)))

/-- Step 2 of `MatrixReconciler.reconcile` (reached only when the
workspace already existed): when `MATRIX.md` is missing, regenerate it and
set the `matrix_md_recreated` flag; an `OSError` there is caught and only
warned about, leaving the flag unset. -/
def md_step (io_ok : Bool) (matrix : Matrix) (sources : List Source)
    (fs : FS) : Bool × FS :=
  if !(existsFS fs (childPath matrix.workspace_path "MATRIX.md")) then
    match update_matrix_md io_ok matrix sources fs with
    | Except.ok fs' => (true, fs')
    | Except.error _ => (false, fs)
  else (false, fs)

/-- `MatrixReconciler.reconcile`: workspace check (recreating it and the
manifest when missing, returning the partial report when that raises the
caught `OSError`), manifest check, orphan detection, then the per-source
loop. Returns the report, the final filesystem, and the final source
records (`_reconcile_remote_source` can mutate a source's `path`);
`Except.error` is an exception escaping `reconcile` itself — the uncaught
`OSError` of a local repair's workspace `mkdir`. -/
def reconcile (env : ReconEnv) (matrix : Matrix) (sources : List Source)
    (fs : FS) : Except String (ReconcileReport × FS × List Source) :=
  let workspace := matrix.workspace_path
  if !(existsFS fs workspace) then
    match create_matrix_space env.create_space_ok matrix sources fs with
    | Except.error _ => Except.ok ({}, fs, sources)
    | Except.ok fs1 =>
      match reconcileSources env workspace sources fs1 with
      | Except.error e => Except.error e
      | Except.ok (results, fs2, sources') =>
        Except.ok ({ workspace_recreated := true, matrix_md_recreated := true,
                     sources_reconciled := results,
                     orphaned_source_ids := orphanedIds matrix sources },
          fs2, sources')
  else
    let (mdFlag, fs1) := md_step env.update_md_ok matrix sources fs
    match reconcileSources env workspace sources fs1 with
    | Except.error e => Except.error e
    | Except.ok (results, fs2, sources') =>
      Except.ok ({ workspace_recreated := false, matrix_md_recreated := mdFlag,
                   sources_reconciled := results,
                   orphaned_source_ids := orphanedIds matrix sources },
        fs2, sources')

/-! ## Basic lemmas about the filesystem model -/

theorem lookupFS_nil (q : String) : lookupFS ([] : FS) q = none := rfl

theorem lookupFS_cons (a : String × Entry) (fs : FS) (q : String) :
    lookupFS (a :: fs) q = if a.1 = q then some a.2 else lookupFS fs q := by
  simp only [lookupFS, List.find?_cons]
  by_cases h : a.1 = q
  · simp [h]
  · simp [h, beq_eq_false_iff_ne.mpr h]

theorem lookupFS_removeFS (fs : FS) (p q : String) :
    lookupFS (removeFS fs p) q = if q = p then none else lookupFS fs q := by
  induction fs with
  | nil => simp [removeFS, lookupFS, ite_self]
  | cons a t ih =>
    by_cases hap : a.1 = p
    · have hb : (a.1 != p) = false := by simp [hap]
      simp only [removeFS, List.filter_cons, hb, Bool.false_eq_true, if_false]
      rw [show List.filter (fun x => x.1 != p) t = removeFS t p from rfl, ih,
        lookupFS_cons]
      by_cases hqp : q = p
      · simp [hqp]
      · have haq : ¬(a.1 = q) := by rw [hap]; exact fun h => hqp h.symm
        simp [hqp, haq]
    · have hb : (a.1 != p) = true := by simp [hap]
      simp only [removeFS, List.filter_cons, hb, if_true]
      rw [lookupFS_cons,
        show List.filter (fun x => x.1 != p) t = removeFS t p from rfl, ih,
        lookupFS_cons]
      by_cases haq : a.1 = q
      · have hqp : ¬(q = p) := fun h => hap (haq.trans h)
        simp [haq, hqp]
      · simp [haq]

theorem lookupFS_setFS (fs : FS) (p : String) (e : Entry) (q : String) :
    lookupFS (setFS fs p e) q = if q = p then some e else lookupFS fs q := by
  rw [setFS, lookupFS_cons, lookupFS_removeFS]
  by_cases h : q = p
  · simp [h]
  · have h' : ¬(p = q) := fun hh => h hh.symm
    simp [h, h']

theorem mkdirFS_ok_of_dir (fs : FS) (p : String)
    (h : lookupFS fs p = some Entry.dir) : mkdirFS fs p = Except.ok fs := by
  simp [mkdirFS, pyIsDir, h]

/-- Inversion of a successful `mkdir`: either the path was free and a
directory was added, or the existing entry already behaved as a
directory. -/
theorem mkdirFS_ok_inv (fs fs' : FS) (p : String)
    (h : mkdirFS fs p = Except.ok fs') :
    (lookupFS fs p = none ∧ fs' = (p, Entry.dir) :: fs) ∨
    (pyIsDir fs p = true ∧ fs' = fs) := by
  by_cases hp : (lookupFS fs p).isSome = true
  · by_cases hd : pyIsDir fs p = true
    · right
      refine ⟨hd, ?_⟩
      simp only [mkdirFS, hp, hd, if_true] at h
      exact (Except.ok.injEq _ _ ▸ h).symm
    · have hd' : pyIsDir fs p = false := by simpa using hd
      simp [mkdirFS, hp, hd'] at h
  · left
    have hp' : lookupFS fs p = none := by
      cases he : lookupFS fs p with
      | none => rfl
      | some e => rw [he] at hp; simp at hp
    refine ⟨hp', ?_⟩
    simp only [mkdirFS, hp', Option.isSome_none, Bool.false_eq_true, if_false] at h
    exact (Except.ok.injEq _ _ ▸ h).symm

theorem mkdirFS_ok_preserves (fs fs' : FS) (p q : String) (e : Entry)
    (hmk : mkdirFS fs p = Except.ok fs')
    (h : lookupFS fs q = some e) : lookupFS fs' q = some e := by
  rcases mkdirFS_ok_inv fs fs' p hmk with ⟨hn, hfs⟩ | ⟨_, hfs⟩
  · subst hfs
    rw [lookupFS_cons]
    by_cases hpq : p = q
    · subst hpq
      rw [h] at hn
      exact Option.noConfusion hn
    · simp [hpq, h]
  · subst hfs
    exact h

/-- A successful `mkdir` is idempotent. -/
theorem mkdirFS_ok_idem (fs fs' : FS) (p : String)
    (hmk : mkdirFS fs p = Except.ok fs') : mkdirFS fs' p = Except.ok fs' := by
  rcases mkdirFS_ok_inv fs fs' p hmk with ⟨hn, hfs⟩ | ⟨hd, hfs⟩
  · subst hfs
    apply mkdirFS_ok_of_dir
    rw [lookupFS_cons]
    simp
  · subst hfs
    exact hmk

/-- A successful `mkdir` stays successful after setting an entry at a path
that was free and differs from the directory path: the directory evidence
(a directory entry, or a symlink to one) is untouched. -/
theorem mkdirFS_ok_set_stable (fs fs' : FS) (p q : String) (e : Entry)
    (hmk : mkdirFS fs p = Except.ok fs')
    (hq : lookupFS fs' q = none) (hpq : p ≠ q) :
    mkdirFS (setFS fs' q e) p = Except.ok (setFS fs' q e) := by
  rcases mkdirFS_ok_inv fs fs' p hmk with ⟨_, hfs⟩ | ⟨hd, hfs⟩
  · rw [hfs]
    apply mkdirFS_ok_of_dir
    rw [lookupFS_setFS, if_neg hpq, lookupFS_cons]
    simp
  · rw [hfs] at hq ⊢
    have hlp : lookupFS (setFS fs q e) p = lookupFS fs p := by
      rw [lookupFS_setFS, if_neg hpq]
    unfold pyIsDir at hd
    cases hep : lookupFS fs p with
    | none => rw [hep] at hd; simp at hd
    | some e0 =>
      cases e0 with
      | dir =>
        exact mkdirFS_ok_of_dir _ _ (hlp.trans hep)
      | file c => rw [hep] at hd; simp at hd
      | symlink t =>
        rw [hep] at hd
        simp only at hd
        cases het : lookupFS fs t with
        | none => rw [het] at hd; simp at hd
        | some e1 =>
          cases e1 with
          | dir =>
            have htq : t ≠ q := by
              intro h
              rw [h, hq] at het
              exact Option.noConfusion het
            have hlt : lookupFS (setFS fs q e) t = some Entry.dir := by
              rw [lookupFS_setFS, if_neg htq]
              exact het
            have hisome : (lookupFS (setFS fs q e) p).isSome = true := by
              rw [hlp, hep]; rfl
            have hdir : pyIsDir (setFS fs q e) p = true := by
              unfold pyIsDir
              rw [hlp, hep]
              simp [hlt]
            simp [mkdirFS, hisome, hdir]
          | file c => rw [het] at hd; simp at hd
          | symlink t2 => rw [het] at hd; simp at hd

theorem existsFS_of_lookup_dir (fs : FS) (p : String)
    (h : lookupFS fs p = some Entry.dir) : existsFS fs p = true := by
  simp [existsFS, h]

theorem isSymlinkFS_eq_false_of_lookup_dir (fs : FS) (p : String)
    (h : lookupFS fs p = some Entry.dir) : isSymlinkFS fs p = false := by
  simp [isSymlinkFS, h]

theorem resolveFuel_of_not_symlink (n : Nat) (fs : FS) (p : String)
    (h : isSymlinkFS fs p = false) : resolveFuel n fs p = p := by
  cases n with
  | zero => rfl
  | succ m =>
    rw [resolveFuel]
    unfold isSymlinkFS at h
    cases he : lookupFS fs p with
    | none => simp [he]
    | some e => cases e <;> simp_all

theorem resolveFS_of_not_symlink (fs : FS) (p : String)
    (h : isSymlinkFS fs p = false) : resolveFS fs p = p :=
  resolveFuel_of_not_symlink _ fs p h

theorem resolveFS_symlink_to_plain (fs : FS) (p t : String)
    (hp : lookupFS fs p = some (Entry.symlink t))
    (ht : isSymlinkFS fs t = false) : resolveFS fs p = t := by
  rw [resolveFS]
  rw [show fs.length + 1 = Nat.succ fs.length from rfl, resolveFuel, hp]
  exact resolveFuel_of_not_symlink _ fs t ht

theorem length_childPath (d n : String) :
    (childPath d n).length = d.length + n.length + 1 := by
  have h1 : ("/" : String).length = 1 := rfl
  rw [childPath, String.length_append, String.length_append, h1]
  omega

/-- The workspace path is a strict proper initial part of any child path,
so they differ. -/
theorem ne_childPath_self (d n : String) : d ≠ childPath d n := by
  intro he
  have hl := congrArg String.length he
  rw [length_childPath] at hl
  omega

/-- The base link name and the id-suffixed link name never coincide. -/
theorem base_ne_suffixed (d n s : String) :
    childPath d n ≠ childPath d (n ++ "-" ++ s) := by
  intro he
  have hl := congrArg String.length he
  rw [length_childPath, length_childPath, String.length_append,
    String.length_append] at hl
  have h1 : ("-" : String).length = 1 := rfl
  rw [h1] at hl
  omega

/-! ## Claims about `unlink_source_from_matrix` (C8, C10) -/

/-- C8: For every Source and workspace state, unlink removes at most one
filesystem entry; any entry whose binding changes is one of the two
candidate names, was a symlink before the call, and is removed (so the
link target and every other entry are untouched); and when neither
candidate name is a symlink, unlink is a no-op and raises no error. -/
theorem C8_unlink_removes_at_most_one_symlink (source : Source)
    (ws : String) (fs : FS) :
    (∀ q : String,
      lookupFS (unlink_source_from_matrix source ws fs) q ≠ lookupFS fs q →
        (q = childPath ws (sanitize_link_name source.name) ∨
          q = childPath ws
            (sanitize_link_name source.name ++ "-" ++ takeChars source.id 8)) ∧
        isSymlinkFS fs q = true ∧
        lookupFS (unlink_source_from_matrix source ws fs) q = none)
    ∧ (isSymlinkFS fs (childPath ws (sanitize_link_name source.name)) = false →
        isSymlinkFS fs (childPath ws
          (sanitize_link_name source.name ++ "-" ++ takeChars source.id 8)) = false →
        unlink_source_from_matrix source ws fs = fs) := by
  by_cases hb : isSymlinkFS fs (childPath ws (sanitize_link_name source.name)) = true
  · have hu : unlink_source_from_matrix source ws fs =
        removeFS fs (childPath ws (sanitize_link_name source.name)) := by
      simp [unlink_source_from_matrix, hb]
    constructor
    · intro q hq
      rw [hu, lookupFS_removeFS] at hq
      by_cases hqb : q = childPath ws (sanitize_link_name source.name)
      · subst hqb
        refine ⟨Or.inl rfl, hb, ?_⟩
        rw [hu, lookupFS_removeFS, if_pos rfl]
      · rw [if_neg hqb] at hq
        exact absurd rfl hq
    · intro h1 _
      rw [h1] at hb
      simp at hb
  · have hb' : isSymlinkFS fs (childPath ws (sanitize_link_name source.name)) = false := by
      simpa using hb
    by_cases hs : isSymlinkFS fs (childPath ws
        (sanitize_link_name source.name ++ "-" ++ takeChars source.id 8)) = true
    · have hu : unlink_source_from_matrix source ws fs =
          removeFS fs (childPath ws
            (sanitize_link_name source.name ++ "-" ++ takeChars source.id 8)) := by
        simp [unlink_source_from_matrix, hb', hs]
      constructor
      · intro q hq
        rw [hu, lookupFS_removeFS] at hq
        by_cases hqs : q = childPath ws
            (sanitize_link_name source.name ++ "-" ++ takeChars source.id 8)
        · subst hqs
          refine ⟨Or.inr rfl, hs, ?_⟩
          rw [hu, lookupFS_removeFS, if_pos rfl]
        · rw [if_neg hqs] at hq
          exact absurd rfl hq
      · intro _ h2
        rw [h2] at hs
        simp at hs
    · have hs' : isSymlinkFS fs (childPath ws
          (sanitize_link_name source.name ++ "-" ++ takeChars source.id 8)) = false := by
        simpa using hs
      have hu : unlink_source_from_matrix source ws fs = fs := by
        simp [unlink_source_from_matrix, hb', hs']
      constructor
      · intro q hq
        rw [hu] at hq
        exact absurd rfl hq
      · intro _ _
        exact hu

/-- C8 witness: on a workspace whose base name is a symlink, exactly that
entry is removed; on a workspace with only real directories, unlink is a
no-op. -/
theorem C8_unlink_witness :
    (("/ws/repo" = childPath "/ws" (sanitize_link_name "repo") ∨
        "/ws/repo" = childPath "/ws"
          (sanitize_link_name "repo" ++ "-" ++ takeChars "abc12345-0000" 8)) ∧
      isSymlinkFS [("/ws/repo", Entry.symlink "/data/x"), ("/ws", Entry.dir)]
        "/ws/repo" = true ∧
      lookupFS (unlink_source_from_matrix
        ⟨"abc12345-0000", "repo", "/src/repo", none, "local", "t"⟩ "/ws"
        [("/ws/repo", Entry.symlink "/data/x"), ("/ws", Entry.dir)]) "/ws/repo" = none)
    ∧ unlink_source_from_matrix
        ⟨"abc12345-0000", "repo", "/src/repo", none, "local", "t"⟩ "/ws"
        [("/ws/repo", Entry.dir), ("/ws", Entry.dir)]
      = [("/ws/repo", Entry.dir), ("/ws", Entry.dir)] := by
  constructor
  · exact (C8_unlink_removes_at_most_one_symlink
      ⟨"abc12345-0000", "repo", "/src/repo", none, "local", "t"⟩ "/ws"
      [("/ws/repo", Entry.symlink "/data/x"), ("/ws", Entry.dir)]).1
      "/ws/repo" (by decide)
  · exact (C8_unlink_removes_at_most_one_symlink
      ⟨"abc12345-0000", "repo", "/src/repo", none, "local", "t"⟩ "/ws"
      [("/ws/repo", Entry.dir), ("/ws", Entry.dir)]).2 (by decide) (by decide)

/-- C10: unlink selects its removal candidate by symlink-ness alone: when
the base name is a symlink it is removed whatever its target resolves to,
and the id-suffixed entry is never touched; the id-suffixed candidate is
removed only when the base name is not a symlink. -/
theorem C10_unlink_selects_by_symlinkness (source : Source)
    (ws : String) (fs : FS) :
    (isSymlinkFS fs (childPath ws (sanitize_link_name source.name)) = true →
      unlink_source_from_matrix source ws fs =
        removeFS fs (childPath ws (sanitize_link_name source.name)) ∧
      lookupFS (unlink_source_from_matrix source ws fs)
          (childPath ws (sanitize_link_name source.name ++ "-" ++ takeChars source.id 8))
        = lookupFS fs
          (childPath ws (sanitize_link_name source.name ++ "-" ++ takeChars source.id 8)))
    ∧ (isSymlinkFS fs (childPath ws (sanitize_link_name source.name)) = false →
        isSymlinkFS fs (childPath ws
          (sanitize_link_name source.name ++ "-" ++ takeChars source.id 8)) = true →
        unlink_source_from_matrix source ws fs =
          removeFS fs (childPath ws
            (sanitize_link_name source.name ++ "-" ++ takeChars source.id 8))) := by
  constructor
  · intro hb
    have hu : unlink_source_from_matrix source ws fs =
        removeFS fs (childPath ws (sanitize_link_name source.name)) := by
      simp [unlink_source_from_matrix, hb]
    refine ⟨hu, ?_⟩
    rw [hu, lookupFS_removeFS]
    have hne : childPath ws (sanitize_link_name source.name ++ "-" ++ takeChars source.id 8)
        ≠ childPath ws (sanitize_link_name source.name) :=
      fun h => base_ne_suffixed ws (sanitize_link_name source.name)
        (takeChars source.id 8) h.symm
    simp [hne]
  · intro hb hs
    simp [unlink_source_from_matrix, hb, hs]

/-- C10 witness: the base name is a symlink resolving to a path different
from the source's path; unlink still removes it and leaves the id-suffixed
entry (a symlink of a different source) untouched. -/
theorem C10_unlink_witness :
    unlink_source_from_matrix
        ⟨"abc12345-0000", "repo", "/src/repo", none, "local", "t"⟩ "/ws"
        [("/ws/repo", Entry.symlink "/other/target"),
          ("/ws/repo-abc12345", Entry.symlink "/src/repo"), ("/ws", Entry.dir)]
      = removeFS
          [("/ws/repo", Entry.symlink "/other/target"),
            ("/ws/repo-abc12345", Entry.symlink "/src/repo"), ("/ws", Entry.dir)]
          "/ws/repo"
    ∧ lookupFS (unlink_source_from_matrix
        ⟨"abc12345-0000", "repo", "/src/repo", none, "local", "t"⟩ "/ws"
        [("/ws/repo", Entry.symlink "/other/target"),
          ("/ws/repo-abc12345", Entry.symlink "/src/repo"), ("/ws", Entry.dir)])
        "/ws/repo-abc12345"
      = some (Entry.symlink "/src/repo") := by
  have h := (C10_unlink_selects_by_symlinkness
    ⟨"abc12345-0000", "repo", "/src/repo", none, "local", "t"⟩ "/ws"
    [("/ws/repo", Entry.symlink "/other/target"),
      ("/ws/repo-abc12345", Entry.symlink "/src/repo"), ("/ws", Entry.dir)]).1
    (by decide)
  constructor
  · exact h.1
  · have h2 := h.2
    rw [show childPath "/ws" (sanitize_link_name "repo" ++ "-"
        ++ takeChars "abc12345-0000" 8) = "/ws/repo-abc12345" from by decide] at h2
    rw [h2]
    decide

/-! ## Claim C7: deterministic collision naming in `link_source_to_matrix` -/

/-- C7: when the sanitized base name is occupied by something other than a
symlink resolving to the source's path, link appends `-` plus the first
8 characters of the source id and creates the symlink there (given the
suffixed name is free). -/
theorem C7_link_collision_suffix (source : Source) (ws : String) (fs : FS)
    (hsp : lookupFS fs source.path = some Entry.dir)
    (hws : lookupFS fs ws = some Entry.dir)
    (hocc : (lookupFS fs (childPath ws (sanitize_link_name source.name))).isSome = true)
    (hnotlink : ¬(isSymlinkFS fs (childPath ws (sanitize_link_name source.name)) = true ∧
      resolveFS fs (childPath ws (sanitize_link_name source.name)) =
        resolveFS fs source.path))
    (hfree : lookupFS fs (childPath ws
      (sanitize_link_name source.name ++ "-" ++ takeChars source.id 8)) = none) :
    link_source_to_matrix source ws fs =
      (LinkResult.ok (childPath ws
          (sanitize_link_name source.name ++ "-" ++ takeChars source.id 8)),
        setFS fs (childPath ws
            (sanitize_link_name source.name ++ "-" ++ takeChars source.id 8))
          (Entry.symlink source.path)) := by
  have hex : existsFS fs source.path = true := existsFS_of_lookup_dir fs source.path hsp
  have hmk : mkdirFS fs ws = Except.ok fs := mkdirFS_ok_of_dir fs ws hws
  have hnoop : (isSymlinkFS fs (childPath ws (sanitize_link_name source.name))
      && (resolveFS fs (childPath ws (sanitize_link_name source.name))
        == resolveFS fs source.path)) = false := by
    by_cases h1 : isSymlinkFS fs (childPath ws (sanitize_link_name source.name)) = true
    · have h2 : resolveFS fs (childPath ws (sanitize_link_name source.name))
          ≠ resolveFS fs source.path := fun h => hnotlink ⟨h1, h⟩
      simp [h1, h2]
    · have h1' : isSymlinkFS fs (childPath ws (sanitize_link_name source.name))
          = false := by simpa using h1
      simp [h1']
  have hcoll : (existsFS fs (childPath ws (sanitize_link_name source.name))
      || isSymlinkFS fs (childPath ws (sanitize_link_name source.name))) = true := by
    cases he : lookupFS fs (childPath ws (sanitize_link_name source.name)) with
    | none => rw [he] at hocc; simp at hocc
    | some e =>
      cases e with
      | dir => simp [existsFS, he]
      | file c => simp [existsFS, he]
      | symlink t => simp [isSymlinkFS, he]
  simp [link_source_to_matrix, hex, hmk, hnoop, hcoll, hfree]

/-- C7 witness: the source named `"repo"` with id starting `abc12345`,
linked into a workspace already holding an unrelated real directory named
`"repo"`, yields a symlink named exactly `"repo-abc12345"`. -/
theorem C7_link_witness :
    link_source_to_matrix ⟨"abc12345-0000", "repo", "/src/repo", none, "local", "t"⟩
        "/ws" [("/ws", Entry.dir), ("/ws/repo", Entry.dir), ("/src/repo", Entry.dir)]
      = (LinkResult.ok "/ws/repo-abc12345",
          setFS [("/ws", Entry.dir), ("/ws/repo", Entry.dir), ("/src/repo", Entry.dir)]
            "/ws/repo-abc12345" (Entry.symlink "/src/repo")) := by
  have h := C7_link_collision_suffix
    ⟨"abc12345-0000", "repo", "/src/repo", none, "local", "t"⟩ "/ws"
    [("/ws", Entry.dir), ("/ws/repo", Entry.dir), ("/src/repo", Entry.dir)]
    (by decide) (by decide) (by decide) (by decide) (by decide)
  rw [h]
  rfl

/-! ## Claim C1: the per-source case analysis of `_reconcile_source` -/

/-- C1 counterexample: a resolved Source exists on which `reconcile`
assigns NO report entry at all: with the workspace path occupied by a
regular file, a local source whose path exists reaches the link attempt,
the workspace `mkdir` raises `FileExistsError`, and — only `SymlinkError`
being caught in the local branch — the exception escapes `reconcile`
before any entry is appended. -/
theorem C1_counterexample_uncaught_oserror_no_entry :
    is_linked ⟨"s1", "loc", "/src/loc", none, "local", "t"⟩ "/ws"
        [("/ws", Entry.file "x"), ("/src/loc", Entry.dir)] = false ∧
    existsFS [("/ws", Entry.file "x"), ("/src/loc", Entry.dir)] "/src/loc" = true ∧
    reconcile_source ⟨true, true, fun _ _ _ => Except.error "network down"⟩
        ⟨"s1", "loc", "/src/loc", none, "local", "t"⟩ "/ws"
        [("/ws", Entry.file "x"), ("/src/loc", Entry.dir)]
      = Except.error "FileExistsError: /ws" ∧
    reconcile ⟨true, true, fun _ _ _ => Except.error "network down"⟩
        ⟨"m1", "M", ["s1"], "/ws", "t", "t"⟩
        [⟨"s1", "loc", "/src/loc", none, "local", "t"⟩]
        [("/ws", Entry.file "x"), ("/src/loc", Entry.dir)]
      = Except.error "FileExistsError: /ws" := by
  decide

/-- C1 amended: for every resolved source the report entry follows the
case analysis of `_reconcile_source` — already validly linked gives `ok`;
local with missing path gives `skipped`/`local path missing`; local with
present path attempts the link, success giving `repaired`, a
`SymlinkError` giving `error` with the error text as action, but an
`OSError` escaping the linker's workspace `mkdir` (workspace path
occupied by a non-directory) propagating uncaught with no entry assigned;
remote with missing clone path and truthy URL re-clones and links, clone
failure giving `error` with an action beginning `reclone failed: ` and
success of the repair giving `repaired`; remote with missing clone path
and no URL gives `skipped`/`remote clone missing and no URL`. -/
theorem C1_amended_reconcile_source_case_analysis (env : ReconEnv)
    (source : Source) (ws : String) (fs : FS) :
    (is_linked source ws fs = true →
      reconcile_source env source ws fs
        = Except.ok (⟨source.id, source.name, "ok", ""⟩, fs, source))
    ∧ (is_linked source ws fs = false → source.source_type = "local" →
        existsFS fs source.path = false →
        reconcile_source env source ws fs
          = Except.ok (⟨source.id, source.name, "skipped", "local path missing"⟩,
              fs, source))
    ∧ (is_linked source ws fs = false → source.source_type = "local" →
        existsFS fs source.path = true →
        (∀ p fs1, link_source_to_matrix source ws fs = (LinkResult.ok p, fs1) →
          reconcile_source env source ws fs
            = Except.ok (⟨source.id, source.name, "repaired", "symlink recreated"⟩,
                fs1, source))
        ∧ (∀ e fs1,
            link_source_to_matrix source ws fs = (LinkResult.symlinkError e, fs1) →
            reconcile_source env source ws fs
              = Except.ok (⟨source.id, source.name, "error", e⟩, fs1, source))
        ∧ (∀ e fs1,
            link_source_to_matrix source ws fs = (LinkResult.osError e, fs1) →
            reconcile_source env source ws fs = Except.error e))
    ∧ (is_linked source ws fs = false → source.source_type ≠ "local" →
        existsFS fs source.path = false → urlTruthy source.url = true →
        (∀ e, env.cloneFn (source.url.getD "") source.name fs = Except.error e →
          reconcile_source env source ws fs
            = Except.ok (⟨source.id, source.name, "error", "reclone failed: " ++ e⟩,
                fs, source))
        ∧ (∀ cp fs1 p fs2,
            env.cloneFn (source.url.getD "") source.name fs = Except.ok (cp, fs1) →
            link_source_to_matrix { source with path := cp } ws fs1
              = (LinkResult.ok p, fs2) →
            reconcile_source env source ws fs
              = Except.ok (reconcile_remote_source env source ws fs)
            ∧ (reconcile_remote_source env source ws fs).1.status = "repaired"))
    ∧ (is_linked source ws fs = false → source.source_type ≠ "local" →
        existsFS fs source.path = false → urlTruthy source.url = false →
        reconcile_source env source ws fs
          = Except.ok (⟨source.id, source.name, "skipped",
              "remote clone missing and no URL"⟩, fs, source)) := by
  refine ⟨?_, ?_, ?_, ?_, ?_⟩
  · intro h1
    simp [reconcile_source, h1]
  · intro h1 h2 h3
    simp [reconcile_source, reconcile_local_source, h1, h2, h3]
  · intro h1 h2 h3
    refine ⟨?_, ?_, ?_⟩
    · intro p fs1 hlink
      simp [reconcile_source, reconcile_local_source, h1, h2, h3, hlink]
    · intro e fs1 hlink
      simp [reconcile_source, reconcile_local_source, h1, h2, h3, hlink]
    · intro e fs1 hlink
      simp [reconcile_source, reconcile_local_source, h1, h2, h3, hlink]
  · intro h1 h2 h3 h4
    have h2b : (source.source_type == "local") = false := by
      simpa using h2
    constructor
    · intro e hclone
      simp [reconcile_source, reconcile_remote_source, h1, h2b, h3, h4, hclone]
    · intro cp fs1 p fs2 hclone hlink
      constructor
      · simp [reconcile_source, h1, h2b]
      · simp [reconcile_remote_source, remote_link_phase, h3, h4, hclone, hlink]
  · intro h1 h2 h3 h4
    have h2b : (source.source_type == "local") = false := by
      simpa using h2
    simp [reconcile_source, reconcile_remote_source, h1, h2b, h3, h4]

/-- C1 amended witness: each case of the analysis exercised on a concrete
workspace state — a validly linked source, a local source with missing
path, a local link success, a local `SymlinkError`, a local uncaught
`OSError`, a remote re-clone failure and a remote re-clone-and-link
success, and a remote source with missing clone and no URL. -/
theorem C1_amended_witness :
    (reconcile_source ⟨true, true, fun _ _ _ => Except.error "network down"⟩
        ⟨"aaaabbbb-1", "repo", "/src/repo", none, "local", "t"⟩ "/ws"
        [("/ws", Entry.dir), ("/ws/repo", Entry.symlink "/src/repo"),
          ("/src/repo", Entry.dir)]
      = Except.ok (⟨"aaaabbbb-1", "repo", "ok", ""⟩,
          [("/ws", Entry.dir), ("/ws/repo", Entry.symlink "/src/repo"),
            ("/src/repo", Entry.dir)],
          ⟨"aaaabbbb-1", "repo", "/src/repo", none, "local", "t"⟩))
    ∧ (reconcile_source ⟨true, true, fun _ _ _ => Except.error "network down"⟩
        ⟨"id2", "miss", "/nope", none, "local", "t"⟩ "/ws" [("/ws", Entry.dir)]
      = Except.ok (⟨"id2", "miss", "skipped", "local path missing"⟩,
          [("/ws", Entry.dir)], ⟨"id2", "miss", "/nope", none, "local", "t"⟩))
    ∧ (reconcile_source ⟨true, true, fun _ _ _ => Except.error "network down"⟩
        ⟨"id3", "loc", "/src/loc", none, "local", "t"⟩ "/ws"
        [("/ws", Entry.dir), ("/src/loc", Entry.dir)]
      = Except.ok (⟨"id3", "loc", "repaired", "symlink recreated"⟩,
          setFS [("/ws", Entry.dir), ("/src/loc", Entry.dir)] "/ws/loc"
            (Entry.symlink "/src/loc"),
          ⟨"id3", "loc", "/src/loc", none, "local", "t"⟩))
    ∧ (reconcile_source ⟨true, true, fun _ _ _ => Except.error "network down"⟩
        ⟨"id3", "loc", "/src/loc", none, "local", "t"⟩ "/ws"
        [("/ws", Entry.dir), ("/src/loc", Entry.dir), ("/ws/loc", Entry.dir),
          ("/ws/loc-id3", Entry.dir)]
      = Except.ok (⟨"id3", "loc", "error",
            "Failed to create symlink: /ws/loc-id3 already exists"⟩,
          [("/ws", Entry.dir), ("/src/loc", Entry.dir), ("/ws/loc", Entry.dir),
            ("/ws/loc-id3", Entry.dir)],
          ⟨"id3", "loc", "/src/loc", none, "local", "t"⟩))
    ∧ (reconcile_source ⟨true, true, fun _ _ _ => Except.error "network down"⟩
        ⟨"id3b", "loc", "/src/loc", none, "local", "t"⟩ "/wsf"
        [("/wsf", Entry.file "x"), ("/src/loc", Entry.dir)]
      = Except.error "FileExistsError: /wsf")
    ∧ (reconcile_source ⟨true, true, fun _ _ _ => Except.error "network down"⟩
        ⟨"id4", "repo", "/old/repo", some "u", "remote", "t"⟩ "/ws" [("/ws", Entry.dir)]
      = Except.ok (⟨"id4", "repo", "error", "reclone failed: network down"⟩,
          [("/ws", Entry.dir)],
          ⟨"id4", "repo", "/old/repo", some "u", "remote", "t"⟩))
    ∧ ((reconcile_remote_source ⟨true, true, fun _ _ fs =>
          Except.ok ("/repos/repo",
            setFS (setFS fs "/repos/repo" Entry.dir) "/repos/repo/.git" Entry.dir)⟩
        ⟨"id4", "repo", "/old/repo", some "u", "remote", "t"⟩ "/ws"
        [("/ws", Entry.dir)]).1.status = "repaired")
    ∧ (reconcile_source ⟨true, true, fun _ _ _ => Except.error "network down"⟩
        ⟨"id5", "repo", "/old/repo", none, "remote", "t"⟩ "/ws" [("/ws", Entry.dir)]
      = Except.ok (⟨"id5", "repo", "skipped", "remote clone missing and no URL"⟩,
          [("/ws", Entry.dir)],
          ⟨"id5", "repo", "/old/repo", none, "remote", "t"⟩)) := by
  refine ⟨?_, ?_, ?_, ?_, ?_, ?_, ?_, ?_⟩
  · exact (C1_amended_reconcile_source_case_analysis
      ⟨true, true, fun _ _ _ => Except.error "network down"⟩
      ⟨"aaaabbbb-1", "repo", "/src/repo", none, "local", "t"⟩ "/ws"
      [("/ws", Entry.dir), ("/ws/repo", Entry.symlink "/src/repo"),
        ("/src/repo", Entry.dir)]).1 (by decide)
  · exact (C1_amended_reconcile_source_case_analysis
      ⟨true, true, fun _ _ _ => Except.error "network down"⟩
      ⟨"id2", "miss", "/nope", none, "local", "t"⟩ "/ws"
      [("/ws", Entry.dir)]).2.1 (by decide) rfl (by decide)
  · exact ((C1_amended_reconcile_source_case_analysis
      ⟨true, true, fun _ _ _ => Except.error "network down"⟩
      ⟨"id3", "loc", "/src/loc", none, "local", "t"⟩ "/ws"
      [("/ws", Entry.dir), ("/src/loc", Entry.dir)]).2.2.1 (by decide) rfl
      (by decide)).1 "/ws/loc"
      (setFS [("/ws", Entry.dir), ("/src/loc", Entry.dir)] "/ws/loc"
        (Entry.symlink "/src/loc")) rfl
  · exact ((C1_amended_reconcile_source_case_analysis
      ⟨true, true, fun _ _ _ => Except.error "network down"⟩
      ⟨"id3", "loc", "/src/loc", none, "local", "t"⟩ "/ws"
      [("/ws", Entry.dir), ("/src/loc", Entry.dir), ("/ws/loc", Entry.dir),
        ("/ws/loc-id3", Entry.dir)]).2.2.1 (by decide) rfl (by decide)).2.1
      "Failed to create symlink: /ws/loc-id3 already exists"
      [("/ws", Entry.dir), ("/src/loc", Entry.dir), ("/ws/loc", Entry.dir),
        ("/ws/loc-id3", Entry.dir)] rfl
  · exact ((C1_amended_reconcile_source_case_analysis
      ⟨true, true, fun _ _ _ => Except.error "network down"⟩
      ⟨"id3b", "loc", "/src/loc", none, "local", "t"⟩ "/wsf"
      [("/wsf", Entry.file "x"), ("/src/loc", Entry.dir)]).2.2.1 (by decide) rfl
      (by decide)).2.2 "FileExistsError: /wsf"
      [("/wsf", Entry.file "x"), ("/src/loc", Entry.dir)] rfl
  · exact ((C1_amended_reconcile_source_case_analysis
      ⟨true, true, fun _ _ _ => Except.error "network down"⟩
      ⟨"id4", "repo", "/old/repo", some "u", "remote", "t"⟩ "/ws"
      [("/ws", Entry.dir)]).2.2.2.1 (by decide) (by decide) (by decide)
      (by decide)).1 "network down" rfl
  · exact (((C1_amended_reconcile_source_case_analysis
      ⟨true, true, fun _ _ fs =>
        Except.ok ("/repos/repo",
          setFS (setFS fs "/repos/repo" Entry.dir) "/repos/repo/.git" Entry.dir)⟩
      ⟨"id4", "repo", "/old/repo", some "u", "remote", "t"⟩ "/ws"
      [("/ws", Entry.dir)]).2.2.2.1 (by decide) (by decide) (by decide)
      (by decide)).2 "/repos/repo"
      (setFS (setFS [("/ws", Entry.dir)] "/repos/repo" Entry.dir)
        "/repos/repo/.git" Entry.dir)
      "/ws/repo"
      (setFS (setFS (setFS [("/ws", Entry.dir)] "/repos/repo" Entry.dir)
          "/repos/repo/.git" Entry.dir) "/ws/repo"
        (Entry.symlink "/repos/repo")) rfl rfl).2
  · exact (C1_amended_reconcile_source_case_analysis
      ⟨true, true, fun _ _ _ => Except.error "network down"⟩
      ⟨"id5", "repo", "/old/repo", none, "remote", "t"⟩ "/ws"
      [("/ws", Entry.dir)]).2.2.2.2 (by decide) (by decide) (by decide) (by decide)

/-! ## Claim C3: failure isolation and the abort conditions -/

/-- A completed per-source loop produces exactly one report entry per
resolved source. -/
theorem reconcileSources_length (env : ReconEnv) (ws : String) :
    ∀ (ss : List Source) (fs : FS) (results : List SourceReconcileResult)
      (fs2 : FS) (ss2 : List Source),
      reconcileSources env ws ss fs = Except.ok (results, fs2, ss2) →
      results.length = ss.length := by
  intro ss
  induction ss with
  | nil =>
    intro fs results fs2 ss2 h
    simp only [reconcileSources, Except.ok.injEq, Prod.mk.injEq] at h
    obtain ⟨h1, _⟩ := h
    rw [← h1]
    rfl
  | cons s rest ih =>
    intro fs results fs2 ss2 h
    simp only [reconcileSources] at h
    cases hstep : reconcile_source env s ws fs with
    | error e => simp [hstep] at h
    | ok trip =>
      rcases trip with ⟨r, fs1, s'⟩
      simp only [hstep] at h
      cases hrest : reconcileSources env ws rest fs1 with
      | error e => simp [hrest] at h
      | ok trip2 =>
        rcases trip2 with ⟨rs, fsr, ssr⟩
        simp only [hrest, Except.ok.injEq, Prod.mk.injEq] at h
        obtain ⟨h1, _, _⟩ := h
        rw [← h1]
        have := ih fs1 rs fsr ssr hrest
        simp [this]

theorem reconcile_local_source_status (s : Source) (ws : String) (fs : FS)
    (r : SourceReconcileResult) (fs1 : FS)
    (h : reconcile_local_source s ws fs = Except.ok (r, fs1)) :
    r.status = "repaired" ∨ r.status = "skipped" ∨ r.status = "error" := by
  unfold reconcile_local_source at h
  by_cases h3 : (!existsFS fs s.path) = true
  · rw [if_pos h3] at h
    simp only [Except.ok.injEq, Prod.mk.injEq] at h
    obtain ⟨h1, _⟩ := h
    subst h1
    simp
  · have h3' : (!existsFS fs s.path) = false := by simpa using h3
    rw [h3'] at h
    simp only [Bool.false_eq_true, if_false] at h
    rcases hl : link_source_to_matrix s ws fs with ⟨res, fsl⟩
    rw [hl] at h
    cases res with
    | ok p =>
      simp only [Except.ok.injEq, Prod.mk.injEq] at h
      obtain ⟨h1, _⟩ := h
      subst h1
      simp
    | symlinkError e =>
      simp only [Except.ok.injEq, Prod.mk.injEq] at h
      obtain ⟨h1, _⟩ := h
      subst h1
      simp
    | osError e => exact absurd h (by simp)

theorem remote_link_phase_status (s2 : Source) (sp ws : String) (fs : FS) :
    (remote_link_phase s2 sp ws fs).1.status = "repaired" ∨
    (remote_link_phase s2 sp ws fs).1.status = "error" := by
  unfold remote_link_phase
  rcases hl : link_source_to_matrix s2 ws fs with ⟨res, fs1⟩
  cases res <;> simp

theorem reconcile_remote_source_status (env : ReconEnv) (s : Source)
    (ws : String) (fs : FS) :
    (reconcile_remote_source env s ws fs).1.status = "repaired" ∨
    (reconcile_remote_source env s ws fs).1.status = "skipped" ∨
    (reconcile_remote_source env s ws fs).1.status = "error" := by
  unfold reconcile_remote_source
  by_cases h3 : (!existsFS fs s.path && urlTruthy s.url) = true
  · simp only [h3, if_true]
    rcases hc : env.cloneFn (s.url.getD "") s.name fs with e | p
    · simp
    · rcases p with ⟨cp, fs1⟩
      rcases remote_link_phase_status { s with path := cp } s.path ws fs1 with h | h
      · exact Or.inl h
      · exact Or.inr (Or.inr h)
  · have h3' : (!existsFS fs s.path && urlTruthy s.url) = false := by simpa using h3
    simp only [h3', Bool.false_eq_true, if_false]
    by_cases h4 : (!existsFS fs s.path) = true
    · simp [h4]
    · have h4' : (!existsFS fs s.path) = false := by simpa using h4
      simp only [h4', Bool.false_eq_true, if_false]
      rcases remote_link_phase_status s s.path ws fs with h | h
      · exact Or.inl h
      · exact Or.inr (Or.inr h)

/-- Every entry a per-source step does produce carries one of the four
report statuses. -/
theorem reconcile_source_status (env : ReconEnv) (s : Source) (ws : String)
    (fs : FS) (r : SourceReconcileResult) (fs1 : FS) (s' : Source)
    (h : reconcile_source env s ws fs = Except.ok (r, fs1, s')) :
    r.status = "ok" ∨ r.status = "repaired" ∨ r.status = "skipped" ∨
    r.status = "error" := by
  unfold reconcile_source at h
  by_cases h1 : is_linked s ws fs = true
  · rw [if_pos h1] at h
    simp only [Except.ok.injEq, Prod.mk.injEq] at h
    obtain ⟨h2, _⟩ := h
    subst h2
    simp
  · have h1' : is_linked s ws fs = false := by simpa using h1
    rw [h1'] at h
    simp only [Bool.false_eq_true, if_false] at h
    by_cases h2 : (s.source_type == "local") = true
    · rw [if_pos h2] at h
      cases hloc : reconcile_local_source s ws fs with
      | error e => simp [hloc] at h
      | ok pr =>
        rcases pr with ⟨r0, fsl⟩
        simp only [hloc, Except.ok.injEq, Prod.mk.injEq] at h
        obtain ⟨h3, _⟩ := h
        rw [← h3]
        exact Or.inr (reconcile_local_source_status s ws fs r0 fsl hloc)
    · have h2' : (s.source_type == "local") = false := by simpa using h2
      rw [h2'] at h
      simp only [Bool.false_eq_true, if_false, Except.ok.injEq] at h
      have hstat := reconcile_remote_source_status env s ws fs
      rw [h] at hstat
      exact Or.inr hstat

/-- C3 counterexample: a per-source repair CAN raise and abort the run:
with the workspace path occupied by a regular file (so the workspace
"exists" and no recreation is attempted), a local source with an existing
path hits the linker's workspace `mkdir`, whose `FileExistsError` is not
caught by `_reconcile_local_source`, and `reconcile` terminates by
exception — an abort not caused by workspace-recreation I/O failure. -/
theorem C3_counterexample_local_repair_raises :
    existsFS [("/wsc", Entry.file "x"), ("/src/c", Entry.dir)] "/wsc" = true ∧
    reconcile ⟨true, true, fun _ _ _ => Except.error "x"⟩
        ⟨"m9", "M", ["s9"], "/wsc", "t", "t"⟩
        [⟨"s9", "c", "/src/c", none, "local", "t"⟩]
        [("/wsc", Entry.file "x"), ("/src/c", Entry.dir)]
      = Except.error "FileExistsError: /wsc" := by
  decide

/-- C3 amended: per-source repair failures raised as `SymlinkError`
(local) or `SymlinkError`/`CloneError`/`OSError` (remote) become report
entries carrying one of the four statuses, and a run that completes
reports exactly one entry per resolved source; but an `OSError` escaping a
local repair's workspace `mkdir` (workspace path occupied by a
non-directory) propagates uncaught and aborts the run mid-loop, so the
workspace-recreation I/O failure — which returns the still-empty report
immediately, with no orphan detection, no per-source entries and the
state untouched — is not the only condition that can abort a run. -/
theorem C3_amended_abort_conditions (env : ReconEnv) (matrix : Matrix)
    (sources : List Source) (fs : FS) :
    (existsFS fs matrix.workspace_path = false →
      ∀ e, create_matrix_space env.create_space_ok matrix sources fs
          = Except.error e →
      reconcile env matrix sources fs =
        Except.ok ({ workspace_recreated := false, matrix_md_recreated := false,
                     sources_reconciled := [], orphaned_source_ids := [] },
          fs, sources))
    ∧ (∀ out, reconcile env matrix sources fs = Except.ok out →
        ∀ r, r ∈ out.1.sources_reconciled →
          r.status = "ok" ∨ r.status = "repaired" ∨ r.status = "skipped" ∨
            r.status = "error")
    ∧ (existsFS fs matrix.workspace_path = true →
        ∀ out, reconcile env matrix sources fs = Except.ok out →
          out.1.sources_reconciled.length = sources.length)
    ∧ (∀ (s : Source) (ws' : String) (fs' : FS),
        is_linked s ws' fs' = false → s.source_type = "local" →
        existsFS fs' s.path = true →
        ∀ e fs1, link_source_to_matrix s ws' fs' = (LinkResult.osError e, fs1) →
          reconcile_source env s ws' fs' = Except.error e) := by
  have hmem : ∀ (ss : List Source) (fs0 : FS)
      (results : List SourceReconcileResult) (fs2 : FS) (ss2 : List Source),
      reconcileSources env matrix.workspace_path ss fs0
        = Except.ok (results, fs2, ss2) →
      ∀ r, r ∈ results →
        r.status = "ok" ∨ r.status = "repaired" ∨ r.status = "skipped" ∨
          r.status = "error" := by
    intro ss
    induction ss with
    | nil =>
      intro fs0 results fs2 ss2 h r hr
      simp only [reconcileSources, Except.ok.injEq, Prod.mk.injEq] at h
      obtain ⟨h1, _⟩ := h
      rw [← h1] at hr
      simp at hr
    | cons s rest ih =>
      intro fs0 results fs2 ss2 h r hr
      simp only [reconcileSources] at h
      cases hstep : reconcile_source env s matrix.workspace_path fs0 with
      | error e => simp [hstep] at h
      | ok trip =>
        rcases trip with ⟨r0, fs1, s'⟩
        simp only [hstep] at h
        cases hrest : reconcileSources env matrix.workspace_path rest fs1 with
        | error e => simp [hrest] at h
        | ok trip2 =>
          rcases trip2 with ⟨rs, fsr, ssr⟩
          simp only [hrest, Except.ok.injEq, Prod.mk.injEq] at h
          obtain ⟨h1, _, _⟩ := h
          rw [← h1] at hr
          simp only [List.mem_cons] at hr
          rcases hr with hr | hr
          · subst hr
            exact reconcile_source_status env s matrix.workspace_path fs0
              r fs1 s' hstep
          · exact ih fs1 rs fsr ssr hrest r hr
  refine ⟨?_, ?_, ?_, ?_⟩
  · intro hws e hcre
    simp [reconcile, hws, hcre]
  · intro out hout r hr
    by_cases hws : existsFS fs matrix.workspace_path = true
    · simp only [reconcile, hws, Bool.not_true, Bool.false_eq_true,
        if_false] at hout
      rcases hmd : md_step env.update_md_ok matrix sources fs with ⟨mdFlag, fs1⟩
      rw [hmd] at hout
      cases hrs : reconcileSources env matrix.workspace_path sources fs1 with
      | error e => rw [hrs] at hout; exact absurd hout (by simp)
      | ok trip =>
        rcases trip with ⟨results, fs2, ss2⟩
        rw [hrs] at hout
        simp only [Except.ok.injEq] at hout
        rw [← hout] at hr
        simp only at hr
        exact hmem sources fs1 results fs2 ss2 hrs r hr
    · have hws' : existsFS fs matrix.workspace_path = false := by simpa using hws
      simp only [reconcile, hws', Bool.not_false, if_true] at hout
      cases hcre : create_matrix_space env.create_space_ok matrix sources fs with
      | error e =>
        simp only [hcre, Except.ok.injEq] at hout
        rw [← hout] at hr
        simp at hr
      | ok fs1 =>
        simp only [hcre] at hout
        cases hrs : reconcileSources env matrix.workspace_path sources fs1 with
        | error e => simp [hrs] at hout
        | ok trip =>
          rcases trip with ⟨results, fs2, ss2⟩
          simp only [hrs, Except.ok.injEq] at hout
          rw [← hout] at hr
          simp only at hr
          exact hmem sources fs1 results fs2 ss2 hrs r hr
  · intro hws out hout
    simp only [reconcile, hws, Bool.not_true, Bool.false_eq_true,
      if_false] at hout
    rcases hmd : md_step env.update_md_ok matrix sources fs with ⟨mdFlag, fs1⟩
    rw [hmd] at hout
    cases hrs : reconcileSources env matrix.workspace_path sources fs1 with
    | error e => rw [hrs] at hout; exact absurd hout (by simp)
    | ok trip =>
      rcases trip with ⟨results, fs2, ss2⟩
      rw [hrs] at hout
      simp only [Except.ok.injEq] at hout
      rw [← hout]
      simp only
      exact reconcileSources_length env matrix.workspace_path sources fs1
        results fs2 ss2 hrs
  · intro s ws' fs' h1 h2 h3 e fs1 hlink
    simp [reconcile_source, reconcile_local_source, h1, h2, h3, hlink]

/-- C3 amended witness: the graceful abort on workspace-creation failure,
a completed run's entry count and entry status, and the uncaught local
`mkdir` `OSError`, each at a concrete state. -/
theorem C3_amended_abort_witness :
    (reconcile ⟨false, true, fun _ _ _ => Except.error "x"⟩
        ⟨"m1", "M", ["s1"], "/ws", "t", "t"⟩
        [⟨"s1", "miss", "/nope", none, "local", "t"⟩] []
      = Except.ok ({ workspace_recreated := false, matrix_md_recreated := false,
                     sources_reconciled := [], orphaned_source_ids := [] },
          [], [⟨"s1", "miss", "/nope", none, "local", "t"⟩]))
    ∧ (({ workspace_recreated := false, matrix_md_recreated := false,
          sources_reconciled := [⟨"s1", "miss", "skipped", "local path missing"⟩],
          orphaned_source_ids := [] } : ReconcileReport).sources_reconciled.length
        = 1)
    ∧ ((⟨"s1", "miss", "skipped", "local path missing"⟩ : SourceReconcileResult).status
          = "ok" ∨
        (⟨"s1", "miss", "skipped", "local path missing"⟩ : SourceReconcileResult).status
          = "repaired" ∨
        (⟨"s1", "miss", "skipped", "local path missing"⟩ : SourceReconcileResult).status
          = "skipped" ∨
        (⟨"s1", "miss", "skipped", "local path missing"⟩ : SourceReconcileResult).status
          = "error")
    ∧ (reconcile_source ⟨false, true, fun _ _ _ => Except.error "x"⟩
        ⟨"sG", "g", "/src/g", none, "local", "t"⟩ "/wsg"
        [("/wsg", Entry.file "x"), ("/src/g", Entry.dir)]
      = Except.error "FileExistsError: /wsg") := by
  refine ⟨?_, ?_, ?_, ?_⟩
  · exact (C3_amended_abort_conditions
      ⟨false, true, fun _ _ _ => Except.error "x"⟩
      ⟨"m1", "M", ["s1"], "/ws", "t", "t"⟩
      [⟨"s1", "miss", "/nope", none, "local", "t"⟩] []).1 (by decide)
      "oserror while creating matrix space" rfl
  · exact (C3_amended_abort_conditions
      ⟨true, true, fun _ _ _ => Except.error "x"⟩
      ⟨"m1", "M", ["s1"], "/ws", "t", "t"⟩
      [⟨"s1", "miss", "/nope", none, "local", "t"⟩]
      [("/ws", Entry.dir), ("/ws/MATRIX.md", Entry.file "x")]).2.2.1 (by decide)
      ({ workspace_recreated := false, matrix_md_recreated := false,
         sources_reconciled := [⟨"s1", "miss", "skipped", "local path missing"⟩],
         orphaned_source_ids := [] },
        [("/ws", Entry.dir), ("/ws/MATRIX.md", Entry.file "x")],
        [⟨"s1", "miss", "/nope", none, "local", "t"⟩]) rfl
  · exact (C3_amended_abort_conditions
      ⟨true, true, fun _ _ _ => Except.error "x"⟩
      ⟨"m1", "M", ["s1"], "/ws", "t", "t"⟩
      [⟨"s1", "miss", "/nope", none, "local", "t"⟩]
      [("/ws", Entry.dir), ("/ws/MATRIX.md", Entry.file "x")]).2.1
      ({ workspace_recreated := false, matrix_md_recreated := false,
         sources_reconciled := [⟨"s1", "miss", "skipped", "local path missing"⟩],
         orphaned_source_ids := [] },
        [("/ws", Entry.dir), ("/ws/MATRIX.md", Entry.file "x")],
        [⟨"s1", "miss", "/nope", none, "local", "t"⟩]) rfl
      ⟨"s1", "miss", "skipped", "local path missing"⟩ (by decide)
  · exact (C3_amended_abort_conditions
      ⟨false, true, fun _ _ _ => Except.error "x"⟩
      ⟨"mG", "M", [], "/x", "t", "t"⟩ [] []).2.2.2
      ⟨"sG", "g", "/src/g", none, "local", "t"⟩ "/wsg"
      [("/wsg", Entry.file "x"), ("/src/g", Entry.dir)]
      (by decide) rfl (by decide) "FileExistsError: /wsg"
      [("/wsg", Entry.file "x"), ("/src/g", Entry.dir)] (by decide)

/-! ## Claim C2: behaviour of `reconcile` when the workspace is missing -/

/-- C2 counterexample: with the workspace missing and its recreation
succeeding, `reconcile` does NOT return immediately — it goes on to
evaluate the sources, so `sources_reconciled` is not empty in that
branch. -/
theorem C2_counterexample_no_early_return :
    existsFS [("/src/loc", Entry.dir)] "/ws2" = false ∧
    ((reconcile ⟨true, true, fun _ _ _ => Except.error "x"⟩
        ⟨"m1", "M", ["s1"], "/ws2", "t", "t"⟩
        [⟨"s1", "loc", "/src/loc", none, "local", "t"⟩]
        [("/src/loc", Entry.dir)]).toOption.map (fun out =>
          (out.1.workspace_recreated, out.1.sources_reconciled)))
      = some (true, [⟨"s1", "loc", "repaired", "symlink recreated"⟩]) := by
  decide

/-- C2 amended: when the workspace directory does not exist and its
recreation succeeds, `reconcile` recreates the workspace and manifest
(setting both flags) and then CONTINUES with orphan detection and the
per-source loop — one entry per resolved source on a completed run, with
an exception arising in the loop propagating — rather than returning
immediately; the immediate return with the bare report happens only when
the recreation itself fails. -/
theorem C2_amended_recreation_then_full_pass (env : ReconEnv)
    (matrix : Matrix) (sources : List Source) (fs : FS) (fs1 : FS)
    (hws : existsFS fs matrix.workspace_path = false)
    (hcreate : create_matrix_space env.create_space_ok matrix sources fs
      = Except.ok fs1) :
    (∀ e, reconcileSources env matrix.workspace_path sources fs1
        = Except.error e →
      reconcile env matrix sources fs = Except.error e)
    ∧ (∀ results fs2 ss2,
        reconcileSources env matrix.workspace_path sources fs1
          = Except.ok (results, fs2, ss2) →
        reconcile env matrix sources fs
          = Except.ok ({ workspace_recreated := true, matrix_md_recreated := true,
                         sources_reconciled := results,
                         orphaned_source_ids := orphanedIds matrix sources },
              fs2, ss2)
        ∧ results.length = sources.length) := by
  constructor
  · intro e hrs
    simp [reconcile, hws, hcreate, hrs]
  · intro results fs2 ss2 hrs
    constructor
    · simp [reconcile, hws, hcreate, hrs]
    · exact reconcileSources_length env matrix.workspace_path sources fs1
        results fs2 ss2 hrs

/-- C2 amended witness: the concrete state of the counterexample run
through the amended statement — both flags set, the single repaired entry
present, and the orphan list computed, in the returned report. -/
theorem C2_amended_witness :
    ((reconcile ⟨true, true, fun _ _ _ => Except.error "x"⟩
        ⟨"m1", "M", ["s1"], "/ws2", "t", "t"⟩
        [⟨"s1", "loc", "/src/loc", none, "local", "t"⟩]
        [("/src/loc", Entry.dir)]).toOption.map (fun out =>
          (out.1.workspace_recreated, out.1.matrix_md_recreated,
            out.1.sources_reconciled.length, out.1.orphaned_source_ids)))
      = some (true, true, 1,
          orphanedIds ⟨"m1", "M", ["s1"], "/ws2", "t", "t"⟩
            [⟨"s1", "loc", "/src/loc", none, "local", "t"⟩]) := by
  have h := (C2_amended_recreation_then_full_pass
    ⟨true, true, fun _ _ _ => Except.error "x"⟩
    ⟨"m1", "M", ["s1"], "/ws2", "t", "t"⟩
    [⟨"s1", "loc", "/src/loc", none, "local", "t"⟩]
    [("/src/loc", Entry.dir)]
    (setFS (("/ws2", Entry.dir) :: [("/src/loc", Entry.dir)]) "/ws2/MATRIX.md"
      (Entry.file (generate_matrix_md_content
        ⟨"m1", "M", ["s1"], "/ws2", "t", "t"⟩
        [⟨"s1", "loc", "/src/loc", none, "local", "t"⟩])))
    (by decide) rfl).2
    [⟨"s1", "loc", "repaired", "symlink recreated"⟩]
    (setFS (setFS (("/ws2", Entry.dir) :: [("/src/loc", Entry.dir)]) "/ws2/MATRIX.md"
      (Entry.file (generate_matrix_md_content
        ⟨"m1", "M", ["s1"], "/ws2", "t", "t"⟩
        [⟨"s1", "loc", "/src/loc", none, "local", "t"⟩])))
      "/ws2/loc" (Entry.symlink "/src/loc"))
    [⟨"s1", "loc", "/src/loc", none, "local", "t"⟩] rfl
  rw [h.1]
  rfl

/-! ## Claim C4: idempotence of `link_source_to_matrix` -/

/-- C4 counterexample: when the first link had to use the id-suffixed
collision name, a second identical call is NOT a no-op: the base name is
still occupied by the foreign entry, the code retries the collision
branch, and `symlink_to` fails on the already-existing suffixed link, so
the second call raises a `SymlinkError` instead of returning the same
path. -/
theorem C4_counterexample_collision_not_idempotent :
    (link_source_to_matrix ⟨"abcdefgh-1", "repo", "/src/repo", none, "local", "t"⟩
        "/ws" [("/ws", Entry.dir), ("/ws/repo", Entry.dir), ("/src/repo", Entry.dir)]).1
      = LinkResult.ok "/ws/repo-abcdefgh" ∧
    (link_source_to_matrix ⟨"abcdefgh-1", "repo", "/src/repo", none, "local", "t"⟩
        "/ws"
        (link_source_to_matrix ⟨"abcdefgh-1", "repo", "/src/repo", none, "local", "t"⟩
          "/ws" [("/ws", Entry.dir), ("/ws/repo", Entry.dir),
            ("/src/repo", Entry.dir)]).2).1
      = LinkResult.symlinkError
          "Failed to create symlink: /ws/repo-abcdefgh already exists" := by
  decide

/-- C4 amended: linking twice is idempotent exactly when the first call
returned the base sanitized name — then the second call returns the
identical path and leaves the filesystem unchanged; when the first call
had to use the id-suffixed collision name (the base name being occupied by
a non-symlink entry), the second call instead fails with a `SymlinkError`
and still leaves the filesystem unchanged. -/
theorem C4_amended_link_idempotent_base_name_only (source : Source)
    (ws : String) (fs : FS) (p : String) (fs1 : FS) :
    (lookupFS fs source.path = some Entry.dir →
      link_source_to_matrix source ws fs = (LinkResult.ok p, fs1) →
      p = childPath ws (sanitize_link_name source.name) →
      link_source_to_matrix source ws fs1 = (LinkResult.ok p, fs1))
    ∧ (lookupFS fs source.path = some Entry.dir →
        (∃ e0, lookupFS fs (childPath ws (sanitize_link_name source.name))
            = some e0 ∧ ∀ t, e0 ≠ Entry.symlink t) →
        link_source_to_matrix source ws fs = (LinkResult.ok p, fs1) →
        p = childPath ws
          (sanitize_link_name source.name ++ "-" ++ takeChars source.id 8) →
        ∃ e, link_source_to_matrix source ws fs1
          = (LinkResult.symlinkError e, fs1)) := by
  constructor
  · intro hsp hlink hbase
    have hex : existsFS fs source.path = true :=
      existsFS_of_lookup_dir fs source.path hsp
    simp only [link_source_to_matrix, hex, Bool.not_true, Bool.false_eq_true,
      if_false] at hlink
    cases hmk : mkdirFS fs ws with
    | error e => simp [hmk] at hlink
    | ok fsm =>
      simp only [hmk] at hlink
      by_cases hnoop : (isSymlinkFS fsm
          (childPath ws (sanitize_link_name source.name))
          && (resolveFS fsm (childPath ws (sanitize_link_name source.name))
            == resolveFS fsm source.path)) = true
      · rw [if_pos hnoop] at hlink
        simp only [Prod.mk.injEq, LinkResult.ok.injEq] at hlink
        obtain ⟨hp, hfs⟩ := hlink
        subst hfs
        subst hp
        have hex1 : existsFS fsm source.path = true :=
          existsFS_of_lookup_dir _ _
            (mkdirFS_ok_preserves fs fsm ws source.path Entry.dir hmk hsp)
        have hmk1 : mkdirFS fsm ws = Except.ok fsm :=
          mkdirFS_ok_idem fs fsm ws hmk
        simp only [link_source_to_matrix, hex1, Bool.not_true, Bool.false_eq_true,
          if_false, hmk1, hnoop, if_true]
      · have hnoop' : (isSymlinkFS fsm
            (childPath ws (sanitize_link_name source.name))
            && (resolveFS fsm (childPath ws (sanitize_link_name source.name))
              == resolveFS fsm source.path)) = false := by
          simpa using hnoop
        rw [hnoop'] at hlink
        simp only [Bool.false_eq_true, if_false] at hlink
        by_cases hcoll : (existsFS fsm
            (childPath ws (sanitize_link_name source.name))
            || isSymlinkFS fsm
              (childPath ws (sanitize_link_name source.name))) = true
        · rw [hcoll] at hlink
          simp only [if_true] at hlink
          by_cases hocc : (lookupFS fsm (childPath ws
              (sanitize_link_name source.name ++ "-"
                ++ takeChars source.id 8))).isSome = true
          · rw [if_pos hocc] at hlink
            simp at hlink
          · have hocc' : (lookupFS fsm (childPath ws
                (sanitize_link_name source.name ++ "-"
                  ++ takeChars source.id 8))).isSome = false := by simpa using hocc
            rw [hocc'] at hlink
            simp only [Bool.false_eq_true, if_false, Prod.mk.injEq,
              LinkResult.ok.injEq] at hlink
            obtain ⟨hp, _⟩ := hlink
            rw [hbase] at hp
            exact absurd hp.symm (base_ne_suffixed ws
              (sanitize_link_name source.name) (takeChars source.id 8))
        · have hcoll' : (existsFS fsm
              (childPath ws (sanitize_link_name source.name))
              || isSymlinkFS fsm
                (childPath ws (sanitize_link_name source.name))) = false := by
            simpa using hcoll
          rw [hcoll'] at hlink
          simp only [Bool.false_eq_true, if_false] at hlink
          by_cases hocc : (lookupFS fsm
              (childPath ws (sanitize_link_name source.name))).isSome = true
          · rw [if_pos hocc] at hlink
            simp at hlink
          · have hocc' : (lookupFS fsm
                (childPath ws (sanitize_link_name source.name))).isSome = false := by
              simpa using hocc
            rw [hocc'] at hlink
            simp only [Bool.false_eq_true, if_false, Prod.mk.injEq,
              LinkResult.ok.injEq] at hlink
            obtain ⟨hp, hfs⟩ := hlink
            subst hfs
            subst hp
            have hnone : lookupFS fsm
                (childPath ws (sanitize_link_name source.name)) = none := by
              cases h : lookupFS fsm
                  (childPath ws (sanitize_link_name source.name)) with
              | none => rfl
              | some e => rw [h] at hocc'; simp at hocc'
            have hmdir : lookupFS fsm source.path = some Entry.dir :=
              mkdirFS_ok_preserves fs fsm ws source.path Entry.dir hmk hsp
            have hspne : source.path
                ≠ childPath ws (sanitize_link_name source.name) := by
              intro h
              rw [h, hnone] at hmdir
              exact Option.noConfusion hmdir
            have hlsp1 : lookupFS (setFS fsm
                (childPath ws (sanitize_link_name source.name))
                (Entry.symlink source.path)) source.path = some Entry.dir := by
              rw [lookupFS_setFS, if_neg hspne]
              exact hmdir
            have hex1 : existsFS (setFS fsm
                (childPath ws (sanitize_link_name source.name))
                (Entry.symlink source.path)) source.path = true :=
              existsFS_of_lookup_dir _ _ hlsp1
            have hwsne : ws ≠ childPath ws (sanitize_link_name source.name) :=
              ne_childPath_self ws (sanitize_link_name source.name)
            have hmk1 : mkdirFS (setFS fsm
                (childPath ws (sanitize_link_name source.name))
                (Entry.symlink source.path)) ws
                = Except.ok (setFS fsm
                    (childPath ws (sanitize_link_name source.name))
                    (Entry.symlink source.path)) :=
              mkdirFS_ok_set_stable fs fsm ws
                (childPath ws (sanitize_link_name source.name))
                (Entry.symlink source.path) hmk hnone hwsne
            have hlbase : lookupFS (setFS fsm
                (childPath ws (sanitize_link_name source.name))
                (Entry.symlink source.path))
                (childPath ws (sanitize_link_name source.name))
                = some (Entry.symlink source.path) := by
              rw [lookupFS_setFS, if_pos rfl]
            have hsym1 : isSymlinkFS (setFS fsm
                (childPath ws (sanitize_link_name source.name))
                (Entry.symlink source.path))
                (childPath ws (sanitize_link_name source.name)) = true := by
              simp [isSymlinkFS, hlbase]
            have hr1 : resolveFS (setFS fsm
                (childPath ws (sanitize_link_name source.name))
                (Entry.symlink source.path))
                (childPath ws (sanitize_link_name source.name)) = source.path :=
              resolveFS_symlink_to_plain _ _ _ hlbase
                (isSymlinkFS_eq_false_of_lookup_dir _ _ hlsp1)
            have hr2 : resolveFS (setFS fsm
                (childPath ws (sanitize_link_name source.name))
                (Entry.symlink source.path)) source.path = source.path :=
              resolveFS_of_not_symlink _ _
                (isSymlinkFS_eq_false_of_lookup_dir _ _ hlsp1)
            have hnoop1 : (isSymlinkFS (setFS fsm
                (childPath ws (sanitize_link_name source.name))
                (Entry.symlink source.path))
                (childPath ws (sanitize_link_name source.name))
                && (resolveFS (setFS fsm
                  (childPath ws (sanitize_link_name source.name))
                  (Entry.symlink source.path))
                  (childPath ws (sanitize_link_name source.name))
                  == resolveFS (setFS fsm
                    (childPath ws (sanitize_link_name source.name))
                    (Entry.symlink source.path)) source.path)) = true := by
              simp [hsym1, hr1, hr2]
            simp only [link_source_to_matrix, hex1, Bool.not_true,
              Bool.false_eq_true, if_false, hmk1, hnoop1, if_true]
  · intro hsp hocc0 hlink hsuffix
    obtain ⟨e0, he0, he0ns⟩ := hocc0
    have hex : existsFS fs source.path = true :=
      existsFS_of_lookup_dir fs source.path hsp
    simp only [link_source_to_matrix, hex, Bool.not_true, Bool.false_eq_true,
      if_false] at hlink
    cases hmk : mkdirFS fs ws with
    | error e => simp [hmk] at hlink
    | ok fsm =>
      simp only [hmk] at hlink
      have he0m : lookupFS fsm
          (childPath ws (sanitize_link_name source.name)) = some e0 :=
        mkdirFS_ok_preserves fs fsm ws _ e0 hmk he0
      have hsymb : isSymlinkFS fsm
          (childPath ws (sanitize_link_name source.name)) = false := by
        cases e0 with
        | dir => simp [isSymlinkFS, he0m]
        | file c => simp [isSymlinkFS, he0m]
        | symlink t => exact absurd rfl (he0ns t)
      have hnoop : (isSymlinkFS fsm
          (childPath ws (sanitize_link_name source.name))
          && (resolveFS fsm (childPath ws (sanitize_link_name source.name))
            == resolveFS fsm source.path)) = false := by
        simp [hsymb]
      have hexb : existsFS fsm
          (childPath ws (sanitize_link_name source.name)) = true := by
        cases e0 with
        | dir => simp [existsFS, he0m]
        | file c => simp [existsFS, he0m]
        | symlink t => exact absurd rfl (he0ns t)
      have hcoll : (existsFS fsm
          (childPath ws (sanitize_link_name source.name))
          || isSymlinkFS fsm
            (childPath ws (sanitize_link_name source.name))) = true := by
        simp [hexb]
      rw [hnoop] at hlink
      simp only [Bool.false_eq_true, if_false] at hlink
      rw [hcoll] at hlink
      simp only [if_true] at hlink
      by_cases hocc : (lookupFS fsm (childPath ws
          (sanitize_link_name source.name ++ "-"
            ++ takeChars source.id 8))).isSome = true
      · rw [if_pos hocc] at hlink
        simp at hlink
      · have hocc' : (lookupFS fsm (childPath ws
            (sanitize_link_name source.name ++ "-"
              ++ takeChars source.id 8))).isSome = false := by simpa using hocc
        rw [hocc'] at hlink
        simp only [Bool.false_eq_true, if_false, Prod.mk.injEq,
          LinkResult.ok.injEq] at hlink
        obtain ⟨hp, hfs⟩ := hlink
        subst hfs
        have hnone : lookupFS fsm (childPath ws
            (sanitize_link_name source.name ++ "-"
              ++ takeChars source.id 8)) = none := by
          cases h : lookupFS fsm (childPath ws
              (sanitize_link_name source.name ++ "-"
                ++ takeChars source.id 8)) with
          | none => rfl
          | some e => rw [h] at hocc'; simp at hocc'
        have hmdir : lookupFS fsm source.path = some Entry.dir :=
          mkdirFS_ok_preserves fs fsm ws source.path Entry.dir hmk hsp
        have hspne : source.path ≠ childPath ws
            (sanitize_link_name source.name ++ "-" ++ takeChars source.id 8) := by
          intro h
          rw [h, hnone] at hmdir
          exact Option.noConfusion hmdir
        have hbne : childPath ws (sanitize_link_name source.name) ≠ childPath ws
            (sanitize_link_name source.name ++ "-" ++ takeChars source.id 8) :=
          base_ne_suffixed ws (sanitize_link_name source.name)
            (takeChars source.id 8)
        have hlsp1 : lookupFS (setFS fsm (childPath ws
            (sanitize_link_name source.name ++ "-" ++ takeChars source.id 8))
            (Entry.symlink source.path)) source.path = some Entry.dir := by
          rw [lookupFS_setFS, if_neg hspne]
          exact hmdir
        have hex1 : existsFS (setFS fsm (childPath ws
            (sanitize_link_name source.name ++ "-" ++ takeChars source.id 8))
            (Entry.symlink source.path)) source.path = true :=
          existsFS_of_lookup_dir _ _ hlsp1
        have hwsne : ws ≠ childPath ws
            (sanitize_link_name source.name ++ "-" ++ takeChars source.id 8) :=
          ne_childPath_self ws _
        have hmk1 : mkdirFS (setFS fsm (childPath ws
            (sanitize_link_name source.name ++ "-" ++ takeChars source.id 8))
            (Entry.symlink source.path)) ws
            = Except.ok (setFS fsm (childPath ws
                (sanitize_link_name source.name ++ "-" ++ takeChars source.id 8))
              (Entry.symlink source.path)) :=
          mkdirFS_ok_set_stable fs fsm ws
            (childPath ws (sanitize_link_name source.name ++ "-"
              ++ takeChars source.id 8))
            (Entry.symlink source.path) hmk hnone hwsne
        have hlbase1 : lookupFS (setFS fsm (childPath ws
            (sanitize_link_name source.name ++ "-" ++ takeChars source.id 8))
            (Entry.symlink source.path))
            (childPath ws (sanitize_link_name source.name)) = some e0 := by
          rw [lookupFS_setFS, if_neg hbne]
          exact he0m
        have hsymb1 : isSymlinkFS (setFS fsm (childPath ws
            (sanitize_link_name source.name ++ "-" ++ takeChars source.id 8))
            (Entry.symlink source.path))
            (childPath ws (sanitize_link_name source.name)) = false := by
          cases e0 with
          | dir => simp [isSymlinkFS, hlbase1]
          | file c => simp [isSymlinkFS, hlbase1]
          | symlink t => exact absurd rfl (he0ns t)
        have hnoop1 : (isSymlinkFS (setFS fsm (childPath ws
            (sanitize_link_name source.name ++ "-" ++ takeChars source.id 8))
            (Entry.symlink source.path))
            (childPath ws (sanitize_link_name source.name))
            && (resolveFS (setFS fsm (childPath ws
              (sanitize_link_name source.name ++ "-" ++ takeChars source.id 8))
              (Entry.symlink source.path))
              (childPath ws (sanitize_link_name source.name))
              == resolveFS (setFS fsm (childPath ws
                (sanitize_link_name source.name ++ "-" ++ takeChars source.id 8))
                (Entry.symlink source.path)) source.path)) = false := by
          simp [hsymb1]
        have hexb1 : existsFS (setFS fsm (childPath ws
            (sanitize_link_name source.name ++ "-" ++ takeChars source.id 8))
            (Entry.symlink source.path))
            (childPath ws (sanitize_link_name source.name)) = true := by
          cases e0 with
          | dir => simp [existsFS, hlbase1]
          | file c => simp [existsFS, hlbase1]
          | symlink t => exact absurd rfl (he0ns t)
        have hcoll1 : (existsFS (setFS fsm (childPath ws
            (sanitize_link_name source.name ++ "-" ++ takeChars source.id 8))
            (Entry.symlink source.path))
            (childPath ws (sanitize_link_name source.name))
            || isSymlinkFS (setFS fsm (childPath ws
              (sanitize_link_name source.name ++ "-" ++ takeChars source.id 8))
              (Entry.symlink source.path))
              (childPath ws (sanitize_link_name source.name))) = true := by
          simp [hexb1]
        have hsuff1 : (lookupFS (setFS fsm (childPath ws
            (sanitize_link_name source.name ++ "-" ++ takeChars source.id 8))
            (Entry.symlink source.path)) (childPath ws
            (sanitize_link_name source.name ++ "-"
              ++ takeChars source.id 8))).isSome = true := by
          rw [lookupFS_setFS, if_pos rfl]
          rfl
        refine ⟨"Failed to create symlink: " ++ childPath ws
          (sanitize_link_name source.name ++ "-" ++ takeChars source.id 8)
          ++ " already exists", ?_⟩
        simp only [link_source_to_matrix, hex1, Bool.not_true, Bool.false_eq_true,
          if_false, hmk1, hnoop1, hcoll1, if_true, hsuff1, if_pos]

/-- C4 amended witness: a first link that used the base name is a no-op
the second time; a first link that used the collision suffix makes the
second call fail. -/
theorem C4_amended_witness :
    link_source_to_matrix ⟨"abcdefgh-1", "repo", "/src/repo", none, "local", "t"⟩
        "/ws" (setFS [("/ws", Entry.dir), ("/src/repo", Entry.dir)] "/ws/repo"
          (Entry.symlink "/src/repo"))
      = (LinkResult.ok "/ws/repo",
          setFS [("/ws", Entry.dir), ("/src/repo", Entry.dir)] "/ws/repo"
            (Entry.symlink "/src/repo"))
    ∧ ∃ e, link_source_to_matrix
        ⟨"abcdefgh-1", "repo", "/src/repo", none, "local", "t"⟩ "/ws"
        (setFS [("/ws", Entry.dir), ("/ws/repo", Entry.dir), ("/src/repo", Entry.dir)]
          "/ws/repo-abcdefgh" (Entry.symlink "/src/repo"))
      = (LinkResult.symlinkError e,
          setFS [("/ws", Entry.dir), ("/ws/repo", Entry.dir), ("/src/repo", Entry.dir)]
            "/ws/repo-abcdefgh" (Entry.symlink "/src/repo")) := by
  constructor
  · exact (C4_amended_link_idempotent_base_name_only
      ⟨"abcdefgh-1", "repo", "/src/repo", none, "local", "t"⟩ "/ws"
      [("/ws", Entry.dir), ("/src/repo", Entry.dir)] "/ws/repo"
      (setFS [("/ws", Entry.dir), ("/src/repo", Entry.dir)] "/ws/repo"
        (Entry.symlink "/src/repo"))).1 (by decide) (by decide) (by decide)
  · exact (C4_amended_link_idempotent_base_name_only
      ⟨"abcdefgh-1", "repo", "/src/repo", none, "local", "t"⟩ "/ws"
      [("/ws", Entry.dir), ("/ws/repo", Entry.dir), ("/src/repo", Entry.dir)]
      "/ws/repo-abcdefgh"
      (setFS [("/ws", Entry.dir), ("/ws/repo", Entry.dir), ("/src/repo", Entry.dir)]
        "/ws/repo-abcdefgh" (Entry.symlink "/src/repo"))).2 (by decide)
      ⟨Entry.dir, by decide, fun t h => Entry.noConfusion h⟩ (by decide) (by decide)

/-! ## Claim C5: the cloner's collision handling -/

/-- C5 counterexample: with the target existing without the marker and the
disambiguated name already holding a marked repository, a retried
existence/marker check would return the disambiguated path with no
external invocation; the code instead invokes the external clone (which
fails on the non-empty destination), so no such retry happens. -/
theorem C5_counterexample_no_marker_recheck :
    (clone_repository true (fun _ => 7) "/repos"
        [("/repos/repo", Entry.dir), ("/repos/repo-0007", Entry.dir),
          ("/repos/repo-0007/.git", Entry.dir)] "u" (some "repo")).gitCalls = 1 ∧
    (clone_repository true (fun _ => 7) "/repos"
        [("/repos/repo", Entry.dir), ("/repos/repo-0007", Entry.dir),
          ("/repos/repo-0007/.git", Entry.dir)] "u" (some "repo")).result
      ≠ Except.ok "/repos/repo-0007" := by
  decide

/-- C5 amended: when the target exists without the repository marker, the
cloner picks the name suffixed with the (per-process, salted) string hash
of the URL modulo 10000 and invokes the external clone there directly —
one external invocation, with no re-run of the existence/marker check:
an occupied disambiguated path makes the clone fail, a free one receives
the clone. -/
theorem C5_amended_hash_suffix_without_recheck (h : String → Nat)
    (reposDir : String) (fs : FS) (url : String) (name : Option String)
    (hbase : existsFS fs
      (childPath reposDir (name.getD (extract_repo_name url))) = true)
    (hmarker : existsFS fs (childPath
      (childPath reposDir (name.getD (extract_repo_name url))) ".git") = false) :
    (clone_repository true h reposDir fs url name).gitCalls = 1
    ∧ ((lookupFS fs (childPath reposDir (name.getD (extract_repo_name url)
          ++ "-" ++ pad4 (h url % 10000)))).isSome = true →
        (clone_repository true h reposDir fs url name).result
          = Except.error ("Git clone failed: destination path "
              ++ childPath reposDir (name.getD (extract_repo_name url)
                ++ "-" ++ pad4 (h url % 10000))
              ++ " already exists and is not an empty directory"))
    ∧ (lookupFS fs (childPath reposDir (name.getD (extract_repo_name url)
          ++ "-" ++ pad4 (h url % 10000))) = none →
        (clone_repository true h reposDir fs url name).result
          = Except.ok (childPath reposDir (name.getD (extract_repo_name url)
              ++ "-" ++ pad4 (h url % 10000)))) := by
  have hc : (existsFS fs (childPath reposDir (name.getD (extract_repo_name url)))
      && existsFS fs (childPath
        (childPath reposDir (name.getD (extract_repo_name url))) ".git")) = false := by
    simp [hbase, hmarker]
  by_cases hlook : (lookupFS fs (childPath reposDir (name.getD (extract_repo_name url)
      ++ "-" ++ pad4 (h url % 10000)))).isSome = true
  · refine ⟨?_, ?_, ?_⟩
    · simp [clone_repository, hc, hbase, hmarker, hlook]
    · intro _
      simp [clone_repository, hc, hbase, hmarker, hlook]
    · intro hnone
      rw [hnone] at hlook
      simp at hlook
  · have hlook' : (lookupFS fs (childPath reposDir (name.getD (extract_repo_name url)
        ++ "-" ++ pad4 (h url % 10000)))).isSome = false := by simpa using hlook
    refine ⟨?_, ?_, ?_⟩
    · simp [clone_repository, hc, hbase, hmarker, hlook']
    · intro hsome
      rw [hsome] at hlook'
      simp at hlook'
    · intro _
      simp [clone_repository, hc, hbase, hmarker, hlook']

/-- C5 witness: both outcomes of the direct (non-rechecked) clone at the
hash-suffixed name, on concrete states. -/
theorem C5_amended_witness :
    ((clone_repository true (fun _ => 7) "/repos"
        [("/repos/repo", Entry.dir), ("/repos/repo-0007", Entry.dir),
          ("/repos/repo-0007/.git", Entry.dir)] "u" (some "repo")).result
      = Except.error ("Git clone failed: destination path /repos/repo-0007"
          ++ " already exists and is not an empty directory"))
    ∧ ((clone_repository true (fun _ => 7) "/repos"
        [("/repos/repo", Entry.dir)] "u" (some "repo")).result
      = Except.ok "/repos/repo-0007") := by
  constructor
  · have h := (C5_amended_hash_suffix_without_recheck (fun _ => 7) "/repos"
      [("/repos/repo", Entry.dir), ("/repos/repo-0007", Entry.dir),
        ("/repos/repo-0007/.git", Entry.dir)] "u" (some "repo")
      (by decide) (by decide)).2.1 (by decide)
    exact h
  · have h := (C5_amended_hash_suffix_without_recheck (fun _ => 7) "/repos"
      [("/repos/repo", Entry.dir)] "u" (some "repo")
      (by decide) (by decide)).2.2 (by decide)
    exact h

/-! ## Claim C6: clone caching across two calls -/

/-- C6 counterexample: when a foreign (marker-less) directory occupies the
target name, calling clone twice with the same URL and name issues TWO
external invocations and does not return the same path both times — the
second call re-enters the collision branch and fails on the already
occupied suffixed destination. -/
theorem C6_counterexample_double_invocation_on_collision :
    (clone_repository true (fun _ => 7) "/repos" [("/repos/repo", Entry.dir)]
        "u" (some "repo")).result = Except.ok "/repos/repo-0007" ∧
    (clone_repository true (fun _ => 7) "/repos" [("/repos/repo", Entry.dir)]
        "u" (some "repo")).gitCalls = 1 ∧
    (clone_repository true (fun _ => 7) "/repos"
        (clone_repository true (fun _ => 7) "/repos" [("/repos/repo", Entry.dir)]
          "u" (some "repo")).fs "u" (some "repo")).gitCalls = 1 ∧
    (clone_repository true (fun _ => 7) "/repos"
        (clone_repository true (fun _ => 7) "/repos" [("/repos/repo", Entry.dir)]
          "u" (some "repo")).fs "u" (some "repo")).result
      = Except.error ("Git clone failed: destination path /repos/repo-0007"
          ++ " already exists and is not an empty directory") := by
  decide

/-- C6 amended: clone caching holds when the target name is not occupied
by a foreign directory: a target already holding the repository marker is
returned immediately with no external invocation, and starting from a free
target name the first call issues the single external invocation and the
second call returns the identical path from the cache with none. -/
theorem C6_amended_clone_caching (h : String → Nat) (reposDir : String)
    (fs : FS) (url : String) (name : Option String) :
    (existsFS fs (childPath reposDir (name.getD (extract_repo_name url))) = true →
      existsFS fs (childPath
        (childPath reposDir (name.getD (extract_repo_name url))) ".git") = true →
      clone_repository true h reposDir fs url name
        = ⟨Except.ok (childPath reposDir (name.getD (extract_repo_name url))), fs, 0⟩)
    ∧ (lookupFS fs (childPath reposDir (name.getD (extract_repo_name url))) = none →
        clone_repository true h reposDir fs url name
          = ⟨Except.ok (childPath reposDir (name.getD (extract_repo_name url))),
              setFS (setFS fs (childPath reposDir (name.getD (extract_repo_name url)))
                  Entry.dir)
                (childPath (childPath reposDir (name.getD (extract_repo_name url)))
                  ".git") Entry.dir, 1⟩
        ∧ clone_repository true h reposDir
            (setFS (setFS fs (childPath reposDir (name.getD (extract_repo_name url)))
                Entry.dir)
              (childPath (childPath reposDir (name.getD (extract_repo_name url)))
                ".git") Entry.dir) url name
          = ⟨Except.ok (childPath reposDir (name.getD (extract_repo_name url))),
              setFS (setFS fs (childPath reposDir (name.getD (extract_repo_name url)))
                  Entry.dir)
                (childPath (childPath reposDir (name.getD (extract_repo_name url)))
                  ".git") Entry.dir, 0⟩) := by
  constructor
  · intro h1 h2
    simp [clone_repository, h1, h2]
  · intro hnone
    have hbase : existsFS fs
        (childPath reposDir (name.getD (extract_repo_name url))) = false := by
      simp [existsFS, hnone]
    have hgitne : childPath reposDir (name.getD (extract_repo_name url))
        ≠ childPath (childPath reposDir (name.getD (extract_repo_name url))) ".git" :=
      ne_childPath_self _ _
    constructor
    · simp [clone_repository, hbase, hnone]
    · have hl1 : lookupFS (setFS (setFS fs
          (childPath reposDir (name.getD (extract_repo_name url))) Entry.dir)
          (childPath (childPath reposDir (name.getD (extract_repo_name url)))
            ".git") Entry.dir)
          (childPath reposDir (name.getD (extract_repo_name url)))
          = some Entry.dir := by
        rw [lookupFS_setFS, if_neg hgitne, lookupFS_setFS, if_pos rfl]
      have hl2 : lookupFS (setFS (setFS fs
          (childPath reposDir (name.getD (extract_repo_name url))) Entry.dir)
          (childPath (childPath reposDir (name.getD (extract_repo_name url)))
            ".git") Entry.dir)
          (childPath (childPath reposDir (name.getD (extract_repo_name url)))
            ".git") = some Entry.dir := by
        rw [lookupFS_setFS, if_pos rfl]
      have he1 : existsFS (setFS (setFS fs
          (childPath reposDir (name.getD (extract_repo_name url))) Entry.dir)
          (childPath (childPath reposDir (name.getD (extract_repo_name url)))
            ".git") Entry.dir)
          (childPath reposDir (name.getD (extract_repo_name url))) = true :=
        existsFS_of_lookup_dir _ _ hl1
      have he2 : existsFS (setFS (setFS fs
          (childPath reposDir (name.getD (extract_repo_name url))) Entry.dir)
          (childPath (childPath reposDir (name.getD (extract_repo_name url)))
            ".git") Entry.dir)
          (childPath (childPath reposDir (name.getD (extract_repo_name url)))
            ".git") = true :=
        existsFS_of_lookup_dir _ _ hl2
      simp [clone_repository, he1, he2]

/-- C6 amended witness: a fresh target name is cloned once and then served
from the cache with the identical path, and a marked repository is served
from the cache immediately. -/
theorem C6_amended_witness :
    clone_repository true (fun _ => 7) "/repos" [] "u" (some "repo")
      = ⟨Except.ok "/repos/repo",
          setFS (setFS [] "/repos/repo" Entry.dir) "/repos/repo/.git" Entry.dir, 1⟩ ∧
    clone_repository true (fun _ => 7) "/repos"
        (setFS (setFS [] "/repos/repo" Entry.dir) "/repos/repo/.git" Entry.dir)
        "u" (some "repo")
      = ⟨Except.ok "/repos/repo",
          setFS (setFS [] "/repos/repo" Entry.dir) "/repos/repo/.git" Entry.dir, 0⟩ := by
  have h := (C6_amended_clone_caching (fun _ => 7) "/repos" [] "u" (some "repo")).2
    (by decide)
  exact ⟨h.1, h.2⟩

/-! ## Claim C9: mutation of the caller-supplied Source -/

/-- C9 counterexample: a per-source outcome of `error` CAN leave the input
Source mutated — when the re-clone succeeded and only the subsequent link
failed, the overwritten `source.path` persists. -/
theorem C9_counterexample_error_outcome_with_mutated_path :
    ((reconcile_source ⟨true, true, fun _ _ fs =>
        Except.ok ("/repos/repo",
          setFS (setFS fs "/repos/repo" Entry.dir) "/repos/repo/.git" Entry.dir)⟩
        ⟨"abc12345-1234", "repo", "/old/repo", some "u", "remote", "t"⟩ "/ws"
        [("/ws", Entry.dir), ("/ws/repo", Entry.dir),
          ("/ws/repo-abc12345", Entry.dir)]).toOption.map (fun x =>
            (x.1.status, x.2.2.path)))
      = some ("error", "/repos/repo") ∧
    ("/repos/repo" : String) ≠ "/old/repo" := by
  decide

/-- C9 amended: `_reconcile_remote_source` overwrites the caller-supplied
Source's `path` exactly when the re-clone succeeds — whether the following
link then succeeds (`repaired`) or fails (`error`) — and in every
per-source outcome not preceded by a successful re-clone (ok, every local
outcome that returns, remote skip, and clone-failure error) the Source is
returned unmodified; a local repair whose uncaught `OSError` propagates
returns nothing at all, so no mutation can be observed there either. -/
theorem C9_amended_path_overwritten_iff_reclone_succeeds (env : ReconEnv)
    (source : Source) (ws : String) (fs : FS) :
    (is_linked source ws fs = true →
      reconcile_source env source ws fs
        = Except.ok (⟨source.id, source.name, "ok", ""⟩, fs, source))
    ∧ (source.source_type = "local" →
        ∀ r fs1 s', reconcile_source env source ws fs = Except.ok (r, fs1, s') →
          s' = source)
    ∧ (source.source_type ≠ "local" → existsFS fs source.path = true →
        (reconcile_source env source ws fs).toOption.map (fun x => x.2.2)
          = some source)
    ∧ (source.source_type ≠ "local" → existsFS fs source.path = false →
        urlTruthy source.url = false →
        (reconcile_source env source ws fs).toOption.map (fun x => x.2.2)
          = some source)
    ∧ (is_linked source ws fs = false → source.source_type ≠ "local" →
        existsFS fs source.path = false → urlTruthy source.url = true →
        (∀ e, env.cloneFn (source.url.getD "") source.name fs = Except.error e →
          (reconcile_source env source ws fs).toOption.map (fun x => x.2.2)
            = some source)
        ∧ (∀ cp fsc,
            env.cloneFn (source.url.getD "") source.name fs = Except.ok (cp, fsc) →
            (reconcile_source env source ws fs).toOption.map (fun x => x.2.2)
              = some { source with path := cp })) := by
  refine ⟨?_, ?_, ?_, ?_, ?_⟩
  · intro h1
    simp [reconcile_source, h1]
  · intro h2 r fs1 s' hok
    have h2b : (source.source_type == "local") = true := by simp [h2]
    by_cases h1 : is_linked source ws fs = true
    · have heq : reconcile_source env source ws fs
          = Except.ok (⟨source.id, source.name, "ok", ""⟩, fs, source) := by
        simp [reconcile_source, h1]
      rw [heq] at hok
      simp only [Except.ok.injEq, Prod.mk.injEq] at hok
      exact hok.2.2.symm
    · have h1' : is_linked source ws fs = false := by simpa using h1
      cases hrl : reconcile_local_source source ws fs with
      | error e =>
        have heq : reconcile_source env source ws fs = Except.error e := by
          simp [reconcile_source, h1', h2b, hrl]
        rw [heq] at hok
        exact Except.noConfusion hok
      | ok p =>
        rcases p with ⟨r0, fs0⟩
        have heq : reconcile_source env source ws fs
            = Except.ok (r0, fs0, source) := by
          simp [reconcile_source, h1', h2b, hrl]
        rw [heq] at hok
        simp only [Except.ok.injEq, Prod.mk.injEq] at hok
        exact hok.2.2.symm
  · intro h2 h3
    have h2b : (source.source_type == "local") = false := by simpa using h2
    by_cases h1 : is_linked source ws fs = true
    · simp [reconcile_source, h1, Except.toOption]
    · have h1' : is_linked source ws fs = false := by simpa using h1
      have hcond : (!existsFS fs source.path && urlTruthy source.url) = false := by
        simp [h3]
      simp only [reconcile_source, h1', Bool.false_eq_true, if_false, h2b,
        reconcile_remote_source, hcond, h3, Bool.not_true]
      rcases hl : link_source_to_matrix source ws fs with ⟨res, fs2⟩
      cases res <;> simp [remote_link_phase, hl, Except.toOption]
  · intro h2 h3 h4
    have h2b : (source.source_type == "local") = false := by simpa using h2
    by_cases h1 : is_linked source ws fs = true
    · simp [reconcile_source, h1, Except.toOption]
    · have h1' : is_linked source ws fs = false := by simpa using h1
      simp [reconcile_source, h1', h2b, reconcile_remote_source, h3, h4,
        Except.toOption]
  · intro h1' h2 h3 h4
    have h2b : (source.source_type == "local") = false := by simpa using h2
    have hcond : (!existsFS fs source.path && urlTruthy source.url) = true := by
      simp [h3, h4]
    constructor
    · intro e hce
      simp [reconcile_source, h1', h2b, reconcile_remote_source, hcond, hce,
        Except.toOption]
    · intro cp fsc hcok
      simp only [reconcile_source, h1', Bool.false_eq_true, if_false, h2b,
        reconcile_remote_source, hcond, if_true, hcok]
      rcases hl : link_source_to_matrix { source with path := cp } ws fsc
        with ⟨res, fs2⟩
      cases res <;> simp [remote_link_phase, hl, Except.toOption]

/-- C9 amended witness: the re-clone-then-link-failure state mutates the
source's path while a clone failure leaves it untouched. -/
theorem C9_amended_witness :
    ((reconcile_source ⟨true, true, fun _ _ fs =>
        Except.ok ("/repos/repo",
          setFS (setFS fs "/repos/repo" Entry.dir) "/repos/repo/.git" Entry.dir)⟩
        ⟨"abc12345-1234", "repo", "/old/repo", some "u", "remote", "t"⟩ "/ws"
        [("/ws", Entry.dir), ("/ws/repo", Entry.dir),
          ("/ws/repo-abc12345", Entry.dir)]).toOption.map (fun x => x.2.2)
      = some { (⟨"abc12345-1234", "repo", "/old/repo", some "u", "remote", "t"⟩
          : Source) with path := "/repos/repo" }) ∧
    ((reconcile_source ⟨true, true, fun _ _ _ => Except.error "network down"⟩
        ⟨"abc12345-1234", "repo", "/old/repo", some "u", "remote", "t"⟩ "/ws"
        [("/ws", Entry.dir)]).toOption.map (fun x => x.2.2)
      = some ⟨"abc12345-1234", "repo", "/old/repo", some "u", "remote", "t"⟩) := by
  constructor
  · exact ((C9_amended_path_overwritten_iff_reclone_succeeds
      ⟨true, true, fun _ _ fs =>
        Except.ok ("/repos/repo",
          setFS (setFS fs "/repos/repo" Entry.dir) "/repos/repo/.git" Entry.dir)⟩
      ⟨"abc12345-1234", "repo", "/old/repo", some "u", "remote", "t"⟩ "/ws"
      [("/ws", Entry.dir), ("/ws/repo", Entry.dir),
        ("/ws/repo-abc12345", Entry.dir)]).2.2.2.2 (by decide) (by decide)
      (by decide) (by decide)).2 "/repos/repo"
      (setFS (setFS [("/ws", Entry.dir), ("/ws/repo", Entry.dir),
          ("/ws/repo-abc12345", Entry.dir)] "/repos/repo" Entry.dir)
        "/repos/repo/.git" Entry.dir) rfl
  · exact ((C9_amended_path_overwritten_iff_reclone_succeeds
      ⟨true, true, fun _ _ _ => Except.error "network down"⟩
      ⟨"abc12345-1234", "repo", "/old/repo", some "u", "remote", "t"⟩ "/ws"
      [("/ws", Entry.dir)]).2.2.2.2 (by decide) (by decide) (by decide)
      (by decide)).1 "network down" rfl

end MatrixApp
